import Mathlib

/-!
# disgo: channel facade, icons, invites and REST resource services

A shallow embedding of `core/channel.go`, `core/invite.go`, `discord/icon.go`,
`rest/invite_service.go`, `rest/voice_service.go` and `rest/webhook_service.go`.

Conventions.
* A Go panic is the `error` branch of `Except Panic`.
* External collaborators (route compilation, the request executor, the
  entity cache, the entity builder, the audio controller, the JSON layer) are
  parameters; every call made to a remote collaborator is recorded, in order,
  in a list carried next to the result.
-/

set_option autoImplicit false

/-! ## package discord: channel types -/

namespace discord

/-- Modelled from the spec: the declaration of `discord.ChannelType` and of
its constants is not among the sources; the spec gives the discriminant as
exactly one of direct-message, guild-text, guild-voice, guild-category,
guild-news, guild-store, guild-stage. The constructors carry the names the
source uses for them. -/
inductive ChannelType where
  | ChannelTypeDM
  | ChannelTypeText
  | ChannelTypeVoice
  | ChannelTypeCategory
  | ChannelTypeNews
  | ChannelTypeStore
  | ChannelTypeStage
  deriving DecidableEq, Repr

/-- `discord.Snowflake` / `snowflake.Snowflake`: a string (the source compares
it with `""`). -/
abbrev Snowflake := String

end discord

/-! ## Go runtime faults and recorded calls -/

/-- The panics the embedded code can raise. `unsupportedOperation` is
`panic("unsupported operation")`, `unsupportedFor t` is the panic of
`unsupported(c)` (its message carries the channel type), the other two are
the Go runtime's own faults. -/
inductive Panic where
  | unsupportedOperation
  | unsupportedFor (t : discord.ChannelType)
  | nilDereference
  | indexOutOfRange
  deriving DecidableEq, Repr

/-- The two panics that make up the unsupported-operation fault. -/
def Panic.isUnsupported : Panic → Bool
  | .unsupportedOperation => true
  | .unsupportedFor _ => true
  | _ => false

/-- A run of a method: the calls to remote collaborators it made, in order,
and then either the panic that stopped it or the value it returned. -/
structure Run (C α : Type) where
  calls : List C
  result : Except Panic α

namespace Run

variable {C α β : Type}

/-- Returning a value: no call, no panic. -/
def ret (a : α) : Run C α := ⟨[], .ok a⟩

/-- Sequencing: a panic in the first part stops the run with the calls made
so far. -/
def andThen (x : Run C α) (f : α → Run C β) : Run C β :=
  match x.result with
  | .error p => ⟨x.calls, .error p⟩
  | .ok a => ⟨x.calls ++ (f a).calls, (f a).result⟩

instance : Monad (Run C) where
  pure := ret
  bind := andThen

end Run

/-- A Go `panic(...)`. -/
def goPanic {C α : Type} (p : Panic) : Run C α := ⟨[], .error p⟩

/-- A call to a remote collaborator: recorded as `c`, answering `r`. -/
def call {C α : Type} (c : C) (r : α) : Run C α := ⟨[c], .ok r⟩

/-- The pointer dereference `*p`: panics on a nil pointer. -/
def deref {C α : Type} : Option α → Run C α
  | some a => ⟨[], .ok a⟩
  | none => ⟨[], .error .nilDereference⟩

/-! ## package discord: icon.go -/

namespace discord

/-- A Go byte. -/
abbrev Byte := Fin 256

/-- A Go `string` or `[]byte`: a sequence of bytes. -/
abbrev GoString := List Byte

/-- The bytes of a string literal of the source (all literals are ASCII). -/
def lit (s : String) : GoString := s.toList.map (fun ch => Fin.ofNat ch.toNat)

/-- `type IconType string`. -/
abbrev IconType := GoString

def IconTypeJPEG : IconType := lit "image/jpeg"
def IconTypePNG : IconType := lit "image/png"
def IconTypeWEBP : IconType := lit "image/webp"
def IconTypeGIF : IconType := lit "image/gif"
def IconTypeUnknown : IconType := IconTypeJPEG

/-- `func (t IconType) GetMIME() string`. -/
def IconType.GetMIME (t : IconType) : GoString := t

/-- `func (t IconType) GetHeader() string`. -/
def IconType.GetHeader (t : IconType) : GoString := lit "data:" ++ t ++ lit ";base64"

/-- `type Icon struct { Type IconType; Data []byte }` (`Type` is reserved in
Lean, so the field is `Type_`). -/
structure Icon where
  Type_ : IconType
  Data : List Byte
  deriving DecidableEq, Repr

/-- `func (i Icon) String() string`. -/
def Icon.String (i : Icon) : GoString :=
  if i.Data.length = 0 then lit ""
  else i.Type_.GetHeader ++ lit "," ++ i.Data

/-- `func (i Icon) MarshalJSON() ([]byte, error)`; `json.Marshal` is the
JSON layer, taken as a parameter. -/
def Icon.MarshalJSON {ρ : Type} (Marshal : GoString → ρ) (i : Icon) : ρ :=
  Marshal i.String

/-! ### `encoding/base64` (Go standard library), as called by `NewIconRaw` -/

/-- The alphabet of `base64.StdEncoding`. -/
def encodeStd : GoString :=
  lit "ABCDEFGHIJKLMNOPQRSTUVWXYZabcdefghijklmnopqrstuvwxyz0123456789+/"

/-- `enc.encode[k]`. -/
def encodeAt (k : Nat) : Byte := encodeStd.getD (k % 64) 0

/-- `base64.StdPadding`, the character `=`. -/
def padChar : Byte := 61

/-- `dst[i] = b`: an assignment through a slice panics when `i` is not below
its length. -/
def store (dst : List Byte) (i : Nat) (b : Byte) : Except Panic (List Byte) :=
  if i < dst.length then .ok (dst.set i b) else .error .indexOutOfRange

/-- The body of `(*Encoding).Encode` after the `len(src) == 0` test: the loop
over whole 3-byte groups, then the remaining 1 or 2 bytes with padding.
`di` is the write position in `dst`. -/
def encodeFrom (dst : List Byte) (di : Nat) : List Byte → Except Panic (List Byte)
  | a :: b :: c :: rest => do
    let val := a.val * 65536 + b.val * 256 + c.val
    let dst ← store dst (di + 0) (encodeAt (val / 262144 % 64))
    let dst ← store dst (di + 1) (encodeAt (val / 4096 % 64))
    let dst ← store dst (di + 2) (encodeAt (val / 64 % 64))
    let dst ← store dst (di + 3) (encodeAt (val % 64))
    encodeFrom dst (di + 4) rest
  | [a, b] => do
    let val := a.val * 65536 + b.val * 256
    let dst ← store dst (di + 0) (encodeAt (val / 262144 % 64))
    let dst ← store dst (di + 1) (encodeAt (val / 4096 % 64))
    let dst ← store dst (di + 2) (encodeAt (val / 64 % 64))
    store dst (di + 3) padChar
  | [a] => do
    let val := a.val * 65536
    let dst ← store dst (di + 0) (encodeAt (val / 262144 % 64))
    let dst ← store dst (di + 1) (encodeAt (val / 4096 % 64))
    let dst ← store dst (di + 2) padChar
    store dst (di + 3) padChar
  | [] => .ok dst

/-- `base64.StdEncoding.Encode(dst, src)`: writes the encoding of `src` into
`dst` and returns nothing; the result here is the content of `dst`
afterwards. It never grows `dst`. -/
def Encode (dst src : List Byte) : Except Panic (List Byte) :=
  if src.length = 0 then .ok dst else encodeFrom dst 0 src

/-- `func NewIconRaw(iconType IconType, src []byte) *Icon`. `var data []byte`
is the nil slice, of length 0, and it is that slice that is handed to
`Encode` as destination. -/
def NewIconRaw (iconType : IconType) (src : List Byte) : Except Panic Icon :=
  let data : List Byte := []
  match Encode data src with
  | .error p => .error p
  | .ok data => .ok { Type_ := iconType, Data := data }

end discord

/-! ## package route (declarations only; the package is not among the sources) -/

namespace route

/-- A value stored in a `route.QueryValues` map (`interface{}` in Go): the
source stores the boolean `true` and snowflakes. -/
inductive QueryValue where
  | bool (b : Bool)
  | snowflake (s : discord.Snowflake)
  deriving DecidableEq, Repr

/-- `route.QueryValues`, a `map[string]interface{}`: the value held at each
key, if any. -/
abbrev QueryValues := String → Option QueryValue

/-- The composite literal `route.QueryValues{}`. -/
def QueryValues.empty : QueryValues := fun _ => none

/-- The map assignment `params[key] = value`. -/
def QueryValues.set (params : QueryValues) (key : String) (value : QueryValue) : QueryValues :=
  fun k => if k = key then some value else params k

/-- Modelled from the spec: route templates are opaque named constants; these
are the templates the sources refer to, under the names they use. -/
inductive APIRoute where
  | InviteURL
  | GetInvite
  | CreateInvite
  | DeleteInvite
  | GetGuildInvites
  | GetChannelInvites
  | GetVoiceRegions
  | GetWebhook
  | UpdateWebhook
  | DeleteWebhook
  | GetWebhookWithToken
  | UpdateWebhookWithToken
  | DeleteWebhookWithToken
  | CreateWebhookMessage
  | CreateWebhookMessageSlack
  | CreateWebhookMessageGitHub
  | UpdateWebhookMessage
  | DeleteWebhookMessage
  deriving DecidableEq, Repr

/-- Modelled from the spec: compiling a template with query values (`none` is
the nil map) and ordered path values yields a compiled route or a
compilation failure, and is pure; `Route` is the compiled route's string. -/
structure Registry (Err CompiledRoute : Type) where
  Compile : APIRoute → Option QueryValues → List String → Except Err CompiledRoute
  Route : CompiledRoute → String

end route

/-! ## package core: channel.go, invite.go -/

namespace core

open discord

/-- The types the sources name without declaring them. Pointers to them are
`Option`s. -/
structure Types where
  Time : Type
  Permissions : Type
  Guild : Type
  Category : Type
  StageInstance : Type
  Member : Type
  Message : Type
  User : Type
  DiscordMessage : Type
  DiscordStageInstance : Type
  MessageCreate : Type
  MessageUpdate : Type
  StageInstanceCreate : Type
  RestError : Type
  Err : Type
  CompiledRoute : Type

/-- `CacheStrategy`; the source uses `CacheStrategyNoWs` only. -/
inductive CacheStrategy where
  | CacheStrategyNoWs
  deriving DecidableEq, Repr

/-- The calls a channel method makes to a Resource Service or to the audio
controller, with their arguments. -/
inductive Call (T : Types) where
  | ChannelsService_CreateMessage (channelID : Snowflake) (messageCreate : T.MessageCreate)
  | ChannelsService_UpdateMessage (channelID messageID : Snowflake) (messageUpdate : T.MessageUpdate)
  | ChannelsService_DeleteMessage (channelID messageID : Snowflake)
  | ChannelsService_BulkDeleteMessages (channelID : Snowflake) (messageIDs : List Snowflake)
  | ChannelsService_CrosspostMessage (channelID messageID : Snowflake)
  | StageInstanceService_CreateStageInstance (stageInstanceCreate : T.StageInstanceCreate)
  | InviteService_DeleteInvite (code : String)
  | AudioController_Connect (guildID channelID : Snowflake)

/-- The client context `Disgo`, as far as the sources use it: the entity
caches (`Cache().XCache().Get`), the Resource Services
(`RestServices().XService()`), the entity builder and the audio controller.
Each field gives what the collaborator answers. -/
structure Disgo (T : Types) where
  GuildCache_Get : Snowflake → Option T.Guild
  CategoryCache_Get : Snowflake → Option T.Category
  StageInstanceCache_Get : Snowflake → Option T.StageInstance
  ChannelsService_CreateMessage :
    Snowflake → T.MessageCreate → Option T.DiscordMessage × Option T.RestError
  ChannelsService_UpdateMessage :
    Snowflake → Snowflake → T.MessageUpdate → Option T.DiscordMessage × Option T.RestError
  ChannelsService_DeleteMessage : Snowflake → Snowflake → Option T.RestError
  ChannelsService_BulkDeleteMessages : Snowflake → List Snowflake → Option T.RestError
  ChannelsService_CrosspostMessage :
    Snowflake → Snowflake → Option T.DiscordMessage × Option T.RestError
  StageInstanceService_CreateStageInstance :
    T.StageInstanceCreate → Option T.DiscordStageInstance × Option T.RestError
  InviteService_DeleteInvite : String → Option T.RestError
  EntityBuilder_CreateMessage : T.DiscordMessage → CacheStrategy → Option T.Message
  EntityBuilder_CreateStageInstance :
    T.DiscordStageInstance → CacheStrategy → Option T.StageInstance
  AudioController_Connect : Snowflake → Snowflake → Option T.Err

/-- `discord.Channel`, the wire representation, with the fields the source
reads (`Type` is reserved in Lean, so the field is `Type_`). -/
structure Channel (T : Types) where
  ID : Snowflake
  Name : Option String
  Type_ : ChannelType
  LastMessageID : Option Snowflake
  LastPinTimestamp : Option T.Time
  GuildID : Option Snowflake
  InteractionPermissions : Option T.Permissions
  ParentID : Option Snowflake
  Position : Option Int
  Bitrate : Option Int
  NSFW : Option Bool
  Topic : Option String

/-- `type channelImpl struct`. -/
structure channelImpl (T : Types) where
  Channel : Channel T
  disgo : Disgo T
  stageInstanceID : Option Snowflake

variable {T : Types}

def channelImpl.Disgo (c : channelImpl T) : Disgo T := c.disgo

def channelImpl.ID (c : channelImpl T) : Snowflake := c.Channel.ID

def channelImpl.Name (c : channelImpl T) : Run (Call T) String := deref c.Channel.Name

def channelImpl.Type_ (c : channelImpl T) : ChannelType := c.Channel.Type_

def channelImpl.IsDMChannel (c : channelImpl T) : Bool :=
  c.Type_ != ChannelType.ChannelTypeDM

def channelImpl.IsTextChannel (c : channelImpl T) : Bool :=
  c.Type_ != ChannelType.ChannelTypeText

def channelImpl.IsVoiceChannel (c : channelImpl T) : Bool :=
  c.Type_ != ChannelType.ChannelTypeVoice

def channelImpl.IsCategory (c : channelImpl T) : Bool :=
  c.Type_ != ChannelType.ChannelTypeCategory

def channelImpl.IsNewsChannel (c : channelImpl T) : Bool :=
  c.Type_ != ChannelType.ChannelTypeNews

def channelImpl.IsStoreChannel (c : channelImpl T) : Bool :=
  c.Type_ != ChannelType.ChannelTypeStore

def channelImpl.IsStageChannel (c : channelImpl T) : Bool :=
  c.Type_ != ChannelType.ChannelTypeStage

def channelImpl.IsMessageChannel (c : channelImpl T) : Bool :=
  c.IsTextChannel || c.IsNewsChannel || c.IsDMChannel

def channelImpl.IsGuildChannel (c : channelImpl T) : Bool :=
  c.IsCategory || c.IsNewsChannel || c.IsTextChannel || c.IsVoiceChannel

/-- `func unsupported(c *channelImpl)`: always panics. -/
def unsupported (c : channelImpl T) : Run (Call T) Unit :=
  goPanic (.unsupportedFor c.Type_)

def channelImpl.LastMessageID (c : channelImpl T) : Option Snowflake := c.Channel.LastMessageID

def channelImpl.LastPinTimestamp (c : channelImpl T) : Option T.Time := c.Channel.LastPinTimestamp

def channelImpl.CreateMessage (c : channelImpl T) (messageCreate : T.MessageCreate) :
    Run (Call T) (Option T.Message × Option T.RestError) := do
  let (message, err) ← call (.ChannelsService_CreateMessage c.ID messageCreate)
    (c.Disgo.ChannelsService_CreateMessage c.ID messageCreate)
  if err.isSome then
    pure (none, err)
  else
    let message ← deref message
    pure (c.Disgo.EntityBuilder_CreateMessage message .CacheStrategyNoWs, none)

def channelImpl.UpdateMessage (c : channelImpl T) (messageID : Snowflake)
    (messageUpdate : T.MessageUpdate) :
    Run (Call T) (Option T.Message × Option T.RestError) := do
  let (message, err) ← call (.ChannelsService_UpdateMessage c.ID messageID messageUpdate)
    (c.Disgo.ChannelsService_UpdateMessage c.ID messageID messageUpdate)
  if err.isSome then
    pure (none, err)
  else
    let message ← deref message
    pure (c.Disgo.EntityBuilder_CreateMessage message .CacheStrategyNoWs, none)

def channelImpl.DeleteMessage (c : channelImpl T) (messageID : Snowflake) :
    Run (Call T) (Option T.RestError) :=
  call (.ChannelsService_DeleteMessage c.ID messageID)
    (c.Disgo.ChannelsService_DeleteMessage c.ID messageID)

def channelImpl.BulkDeleteMessages (c : channelImpl T) (messageIDs : List Snowflake) :
    Run (Call T) (Option T.RestError) :=
  call (.ChannelsService_BulkDeleteMessages c.ID messageIDs)
    (c.Disgo.ChannelsService_BulkDeleteMessages c.ID messageIDs)

def channelImpl.GuildID (c : channelImpl T) : Run (Call T) Snowflake := do
  if !c.IsGuildChannel || c.Channel.GuildID.isNone then
    goPanic .unsupportedOperation
  deref c.Channel.GuildID

def channelImpl.Guild (c : channelImpl T) : Run (Call T) (Option T.Guild) := do
  let guildID ← c.GuildID
  pure (c.Disgo.GuildCache_Get guildID)

def channelImpl.Permissions (c : channelImpl T) : Run (Call T) T.Permissions := do
  if !c.IsGuildChannel then
    goPanic .unsupportedOperation
  deref c.Channel.InteractionPermissions

def channelImpl.ParentID (c : channelImpl T) : Run (Call T) (Option Snowflake) := do
  if !c.IsGuildChannel then
    goPanic .unsupportedOperation
  pure c.Channel.ParentID

def channelImpl.Parent (c : channelImpl T) : Run (Call T) (Option T.Category) := do
  if (← c.ParentID).isNone then
    pure none
  else
    let parentID ← deref c.Channel.ParentID
    pure (c.Disgo.CategoryCache_Get parentID)

def channelImpl.Position (c : channelImpl T) : Run (Call T) (Option Int) := do
  if !c.IsGuildChannel then
    goPanic .unsupportedOperation
  pure c.Channel.Position

def channelImpl.Connect (c : channelImpl T) : Run (Call T) (Option T.Err) := do
  if !c.IsVoiceChannel then
    unsupported c
  let guildID ← c.GuildID
  call (.AudioController_Connect guildID c.ID) (c.Disgo.AudioController_Connect guildID c.ID)

def channelImpl.Bitrate (c : channelImpl T) : Run (Call T) Int := do
  if !c.IsVoiceChannel then
    unsupported c
  deref c.Channel.Bitrate

def channelImpl.NSFW (c : channelImpl T) : Run (Call T) Bool := do
  if !c.IsTextChannel then
    unsupported c
  deref c.Channel.NSFW

def channelImpl.Topic (c : channelImpl T) : Option String := c.Channel.Topic

def channelImpl.CrosspostMessage (c : channelImpl T) (messageID : Snowflake) :
    Run (Call T) (Option T.Message × Option T.RestError) := do
  let (message, err) ← call (.ChannelsService_CrosspostMessage c.ID messageID)
    (c.Disgo.ChannelsService_CrosspostMessage c.ID messageID)
  if err.isSome then
    pure (none, err)
  else
    let message ← deref message
    pure (c.Disgo.EntityBuilder_CreateMessage message .CacheStrategyNoWs, none)

def channelImpl.StageInstance (c : channelImpl T) : Run (Call T) (Option T.StageInstance) := do
  if !c.IsStageChannel then
    goPanic .unsupportedOperation
  if c.stageInstanceID.isNone then
    pure none
  else
    let stageInstanceID ← deref c.stageInstanceID
    pure (c.Disgo.StageInstanceCache_Get stageInstanceID)

def channelImpl.CreateStageInstance (c : channelImpl T)
    (stageInstanceCreate : T.StageInstanceCreate) :
    Run (Call T) (Option T.StageInstance × Option T.RestError) := do
  if !c.IsStageChannel then
    unsupported c
  let (stageInstance, err) ← call (.StageInstanceService_CreateStageInstance stageInstanceCreate)
    (c.Disgo.StageInstanceService_CreateStageInstance stageInstanceCreate)
  if err.isSome then
    pure (none, err)
  else
    let stageInstance ← deref stageInstance
    pure (c.Disgo.EntityBuilder_CreateStageInstance stageInstance .CacheStrategyNoWs, none)

def channelImpl.IsModerator (c : channelImpl T) (_member : Option T.Member) :
    Run (Call T) Bool := do
  if !c.IsStageChannel then
    unsupported c
  pure true -- TODO: actually check

/-- `type Invite struct` of package core: the embedded `discord.Invite`
contributes `Code`. -/
structure Invite (T : Types) where
  Code : String
  Disgo : Disgo T
  Inviter : Option T.User
  TargetUser : Option T.User

/-- `func (i *Invite) URL() string`. -/
def Invite.URL (R : route.Registry T.Err T.CompiledRoute) (i : Invite T) :
    Run (Call T) String :=
  match R.Compile .InviteURL none [i.Code] with
  | .error _ => pure ""
  | .ok url => pure (R.Route url)

/-- `func (i *Invite) Delete() rest.Error`. -/
def Invite.Delete (i : Invite T) : Run (Call T) (Option T.RestError) :=
  call (.InviteService_DeleteInvite i.Code) (i.Disgo.InviteService_DeleteInvite i.Code)

end core

/-! ## package rest: invite_service.go, voice_service.go, webhook_service.go -/

namespace rest

open discord route

/-- The types the sources name without declaring them. `Any` is a non-nil
`interface{}` request body. -/
structure Types where
  Err : Type
  CompiledAPIRoute : Type
  Any : Type
  RequestOpt : Type
  Invite : Type
  VoiceRegion : Type
  Webhook : Type
  Message : Type

/-- `discord.UnmarshalWebhook`, the envelope a webhook is decoded into. -/
structure UnmarshalWebhook (T : Types) where
  Webhook : Option T.Webhook

/-- The response sink handed to `Do` as `rsBody`: `nil`, or the address of a
zero-valued variable of one of five types. -/
inductive RsBody where
  | nil
  | invite
  | invites
  | regions
  | unmarshalWebhook
  | message
  deriving DecidableEq, Repr

/-- What the variable behind the sink holds: `*discord.Invite`,
`[]discord.Invite`, `[]discord.VoiceRegion`, `discord.UnmarshalWebhook`,
`*discord.Message`; nothing for the nil sink. -/
def RsBody.Val (T : Types) : RsBody → Type
  | .nil => Unit
  | .invite => Option T.Invite
  | .invites => List T.Invite
  | .regions => List T.VoiceRegion
  | .unmarshalWebhook => UnmarshalWebhook T
  | .message => Option T.Message

/-- The Request Executor `rest.Client`: `Do(compiledRoute, rqBody, rsBody,
opts...)` answers with what it left in the sink and with the error it
returns. -/
structure Client (T : Types) where
  Do : T.CompiledAPIRoute → Option T.Any → (rsBody : RsBody) → List T.RequestOpt →
    RsBody.Val T rsBody × Option T.Err

/-- `discord.Payload`: a value with a `ToBody() (interface{}, error)` method. -/
structure Payload (T : Types) where
  ToBody : Except T.Err (Option T.Any)

/-- What a service operation does, in order: route compilations and Request
Executor invocations, with their arguments. -/
inductive Event (T : Types) where
  | Compile (apiRoute : APIRoute) (queryValues : Option QueryValues) (params : List String)
  | Do (compiledRoute : T.CompiledAPIRoute) (rqBody : Option T.Any) (rsBody : RsBody)
      (opts : List T.RequestOpt)

def Event.isDo {T : Types} : Event T → Bool
  | .Do _ _ _ _ => true
  | .Compile _ _ _ => false

def Event.isCompile {T : Types} : Event T → Bool
  | .Compile _ _ _ => true
  | .Do _ _ _ _ => false

/-- How many times the Request Executor was invoked in a run. -/
def doCount {T : Types} {α : Type} (r : Run (Event T) α) : Nat := r.calls.countP Event.isDo

structure inviteServiceImpl (T : Types) where
  restClient : Client T

structure voiceServiceImpl (T : Types) where
  restClient : Client T

structure webhookServiceImpl (T : Types) where
  restClient : Client T

variable {T : Types}

/-- `apiRoute.Compile(queryValues, params...)`, recorded. -/
def compile (R : Registry T.Err T.CompiledAPIRoute) (apiRoute : APIRoute)
    (queryValues : Option QueryValues) (params : List String) :
    Run (Event T) (Except T.Err T.CompiledAPIRoute) :=
  call (.Compile apiRoute queryValues params) (R.Compile apiRoute queryValues params)

/-- `restClient.Do(compiledRoute, rqBody, rsBody, opts...)`, recorded. -/
def Client.invoke (restClient : Client T) (compiledRoute : T.CompiledAPIRoute)
    (rqBody : Option T.Any) (rsBody : RsBody) (opts : List T.RequestOpt) :
    Run (Event T) (RsBody.Val T rsBody × Option T.Err) :=
  call (.Do compiledRoute rqBody rsBody opts) (restClient.Do compiledRoute rqBody rsBody opts)

def inviteServiceImpl.GetInvite (R : Registry T.Err T.CompiledAPIRoute)
    (s : inviteServiceImpl T) (code : String)
    (opts : List T.RequestOpt) : Run (Event T) (Option T.Invite × Option T.Err) := do
  match ← compile R .GetInvite none [code] with
  | .error err => pure (none, some err)
  | .ok compiledRoute =>
    let (invite, err) ← s.restClient.invoke compiledRoute none .invite opts
    pure (invite, err)

def inviteServiceImpl.CreateInvite (R : Registry T.Err T.CompiledAPIRoute)
    (s : inviteServiceImpl T) (channelID : Snowflake) (inviteCreate : T.Any)
    (opts : List T.RequestOpt) : Run (Event T) (Option T.Invite × Option T.Err) := do
  match ← compile R .CreateInvite none [channelID] with
  | .error err => pure (none, some err)
  | .ok compiledRoute =>
    let (invite, err) ← s.restClient.invoke compiledRoute (some inviteCreate) .invite opts
    pure (invite, err)

def inviteServiceImpl.DeleteInvite (R : Registry T.Err T.CompiledAPIRoute)
    (s : inviteServiceImpl T) (code : String)
    (opts : List T.RequestOpt) : Run (Event T) (Option T.Invite × Option T.Err) := do
  match ← compile R .DeleteInvite none [code] with
  | .error err => pure (none, some err)
  | .ok compiledRoute =>
    let (invite, err) ← s.restClient.invoke compiledRoute none .invite opts
    pure (invite, err)

def inviteServiceImpl.GetGuildInvites (R : Registry T.Err T.CompiledAPIRoute)
    (s : inviteServiceImpl T) (guildID : Snowflake)
    (opts : List T.RequestOpt) : Run (Event T) (List T.Invite × Option T.Err) := do
  match ← compile R .GetGuildInvites none [guildID] with
  | .error err => pure ([], some err)
  | .ok compiledRoute =>
    let (invites, err) ← s.restClient.invoke compiledRoute none .invites opts
    pure (invites, err)

def inviteServiceImpl.GetChannelInvites (R : Registry T.Err T.CompiledAPIRoute)
    (s : inviteServiceImpl T) (channelID : Snowflake)
    (opts : List T.RequestOpt) : Run (Event T) (List T.Invite × Option T.Err) := do
  match ← compile R .GetChannelInvites none [channelID] with
  | .error err => pure ([], some err)
  | .ok compiledRoute =>
    let (invites, err) ← s.restClient.invoke compiledRoute none .invites opts
    pure (invites, err)

def voiceServiceImpl.GetVoiceRegions (R : Registry T.Err T.CompiledAPIRoute)
    (s : voiceServiceImpl T)
    (opts : List T.RequestOpt) : Run (Event T) (List T.VoiceRegion × Option T.Err) := do
  match ← compile R .GetVoiceRegions none [] with
  | .error err => pure ([], some err)
  | .ok compiledRoute =>
    let (regions, err) ← s.restClient.invoke compiledRoute none .regions opts
    pure (regions, err)

def webhookServiceImpl.GetWebhook (R : Registry T.Err T.CompiledAPIRoute)
    (s : webhookServiceImpl T) (webhookID : Snowflake)
    (opts : List T.RequestOpt) : Run (Event T) (Option T.Webhook × Option T.Err) := do
  match ← compile R .GetWebhook none [webhookID] with
  | .error err => pure (none, some err)
  | .ok compiledRoute =>
    let (unmarshalWebhook, err) ←
      s.restClient.invoke compiledRoute none .unmarshalWebhook opts
    if err.isNone then
      pure (unmarshalWebhook.Webhook, err)
    else
      pure (none, err)

def webhookServiceImpl.UpdateWebhook (R : Registry T.Err T.CompiledAPIRoute)
    (s : webhookServiceImpl T) (webhookID : Snowflake) (webhookUpdate : T.Any)
    (opts : List T.RequestOpt) : Run (Event T) (Option T.Webhook × Option T.Err) := do
  match ← compile R .UpdateWebhook none [webhookID] with
  | .error err => pure (none, some err)
  | .ok compiledRoute =>
    let (unmarshalWebhook, err) ←
      s.restClient.invoke compiledRoute (some webhookUpdate) .unmarshalWebhook opts
    if err.isNone then
      pure (unmarshalWebhook.Webhook, err)
    else
      pure (none, err)

def webhookServiceImpl.DeleteWebhook (R : Registry T.Err T.CompiledAPIRoute)
    (s : webhookServiceImpl T) (webhookID : Snowflake)
    (opts : List T.RequestOpt) : Run (Event T) (Option T.Err) := do
  match ← compile R .DeleteWebhook none [webhookID] with
  | .error err => pure (some err)
  | .ok compiledRoute =>
    let (_, err) ← s.restClient.invoke compiledRoute none .nil opts
    pure err

def webhookServiceImpl.GetWebhookWithToken (R : Registry T.Err T.CompiledAPIRoute)
    (s : webhookServiceImpl T) (webhookID : Snowflake) (webhookToken : String)
    (opts : List T.RequestOpt) : Run (Event T) (Option T.Webhook × Option T.Err) := do
  match ← compile R .GetWebhookWithToken none [webhookID, webhookToken] with
  | .error err => pure (none, some err)
  | .ok compiledRoute =>
    let (unmarshalWebhook, err) ←
      s.restClient.invoke compiledRoute none .unmarshalWebhook opts
    if err.isNone then
      pure (unmarshalWebhook.Webhook, err)
    else
      pure (none, err)

def webhookServiceImpl.UpdateWebhookWithToken (R : Registry T.Err T.CompiledAPIRoute)
    (s : webhookServiceImpl T) (webhookID : Snowflake) (webhookToken : String) (webhookUpdate : T.Any)
    (opts : List T.RequestOpt) : Run (Event T) (Option T.Webhook × Option T.Err) := do
  match ← compile R .UpdateWebhookWithToken none [webhookID, webhookToken] with
  | .error err => pure (none, some err)
  | .ok compiledRoute =>
    let (unmarshalWebhook, err) ←
      s.restClient.invoke compiledRoute (some webhookUpdate) .unmarshalWebhook opts
    if err.isNone then
      pure (unmarshalWebhook.Webhook, err)
    else
      pure (none, err)

def webhookServiceImpl.DeleteWebhookWithToken (R : Registry T.Err T.CompiledAPIRoute)
    (s : webhookServiceImpl T) (webhookID : Snowflake) (webhookToken : String)
    (opts : List T.RequestOpt) : Run (Event T) (Option T.Err) := do
  match ← compile R .DeleteWebhookWithToken none [webhookID, webhookToken] with
  | .error err => pure (some err)
  | .ok compiledRoute =>
    let (_, err) ← s.restClient.invoke compiledRoute none .nil opts
    pure err

def webhookServiceImpl.createMessage (R : Registry T.Err T.CompiledAPIRoute)
    (s : webhookServiceImpl T) (webhookID : Snowflake) (webhookToken : String)
    (messageCreate : Payload T) (wait : Bool) (threadID : Snowflake) (apiRoute : APIRoute)
    (opts : List T.RequestOpt) : Run (Event T) (Option T.Message × Option T.Err) := do
  let params := QueryValues.empty
  let params := if wait then params.set "wait" (.bool true) else params
  let params := if threadID ≠ "" then params.set "thread_id" (.snowflake threadID) else params
  match ← compile R apiRoute (some params) [webhookID, webhookToken] with
  | .error err => pure (none, some err)
  | .ok compiledRoute =>
    match messageCreate.ToBody with
    | .error err => pure (none, some err)
    | .ok body =>
      if wait then
        let (message, err) ← s.restClient.invoke compiledRoute body .message opts
        pure (message, err)
      else
        let (_, err) ← s.restClient.invoke compiledRoute body .nil opts
        pure (none, err)

def webhookServiceImpl.CreateMessage (R : Registry T.Err T.CompiledAPIRoute)
    (s : webhookServiceImpl T) (webhookID : Snowflake) (webhookToken : String)
    (messageCreate : Payload T) (wait : Bool) (threadID : Snowflake)
    (opts : List T.RequestOpt) : Run (Event T) (Option T.Message × Option T.Err) :=
  s.createMessage R webhookID webhookToken messageCreate wait threadID .CreateWebhookMessage opts

def webhookServiceImpl.CreateMessageSlack (R : Registry T.Err T.CompiledAPIRoute)
    (s : webhookServiceImpl T) (webhookID : Snowflake) (webhookToken : String)
    (messageCreate : Payload T) (wait : Bool) (threadID : Snowflake)
    (opts : List T.RequestOpt) : Run (Event T) (Option T.Message × Option T.Err) :=
  s.createMessage R webhookID webhookToken messageCreate wait threadID
    .CreateWebhookMessageSlack opts

def webhookServiceImpl.CreateMessageGitHub (R : Registry T.Err T.CompiledAPIRoute)
    (s : webhookServiceImpl T) (webhookID : Snowflake) (webhookToken : String)
    (messageCreate : Payload T) (wait : Bool) (threadID : Snowflake)
    (opts : List T.RequestOpt) : Run (Event T) (Option T.Message × Option T.Err) :=
  s.createMessage R webhookID webhookToken messageCreate wait threadID
    .CreateWebhookMessageGitHub opts

def webhookServiceImpl.UpdateMessage (R : Registry T.Err T.CompiledAPIRoute)
    (s : webhookServiceImpl T) (webhookID : Snowflake) (webhookToken : String)
    (messageID : Snowflake) (messageUpdate : Payload T) (threadID : Snowflake)
    (opts : List T.RequestOpt) : Run (Event T) (Option T.Message × Option T.Err) := do
  let params := QueryValues.empty
  let params := if threadID ≠ "" then params.set "thread_id" (.snowflake threadID) else params
  match ← compile R .UpdateWebhookMessage (some params) [webhookID, webhookToken, messageID] with
  | .error err => pure (none, some err)
  | .ok compiledRoute =>
    match messageUpdate.ToBody with
    | .error err => pure (none, some err)
    | .ok body =>
      let (message, err) ← s.restClient.invoke compiledRoute body .message opts
      pure (message, err)

def webhookServiceImpl.DeleteMessage (R : Registry T.Err T.CompiledAPIRoute)
    (s : webhookServiceImpl T) (webhookID : Snowflake) (webhookToken : String)
    (messageID : Snowflake) (threadID : Snowflake) (opts : List T.RequestOpt) :
    Run (Event T) (Option T.Err) := do
  let params := QueryValues.empty
  let params := if threadID ≠ "" then params.set "thread_id" (.snowflake threadID) else params
  match ← compile R .DeleteWebhookMessage (some params) [webhookID, webhookToken, messageID] with
  | .error err => pure (some err)
  | .ok compiledRoute =>
    let (_, err) ← s.restClient.invoke compiledRoute none .nil opts
    pure err

end rest

/-! ## Concrete instances, for evaluation -/

namespace core

open discord

/-- An instance of the undeclared types: text for entities, numbers for
permissions. -/
@[reducible]
def exampleTypes : Types where
  Time := String
  Permissions := Nat
  Guild := String
  Category := String
  StageInstance := String
  Member := String
  Message := String
  User := String
  DiscordMessage := String
  DiscordStageInstance := String
  MessageCreate := String
  MessageUpdate := String
  StageInstanceCreate := String
  RestError := String
  Err := String
  CompiledRoute := String

/-- A client context whose caches hold an entry under every identifier and
whose services answer without error. -/
def exampleDisgo : Disgo exampleTypes where
  GuildCache_Get := fun id => some ("guild " ++ id)
  CategoryCache_Get := fun id => some ("category " ++ id)
  StageInstanceCache_Get := fun id => some ("stage instance " ++ id)
  ChannelsService_CreateMessage := fun _ content => (some content, none)
  ChannelsService_UpdateMessage := fun _ _ content => (some content, none)
  ChannelsService_DeleteMessage := fun _ _ => none
  ChannelsService_BulkDeleteMessages := fun _ _ => none
  ChannelsService_CrosspostMessage := fun _ messageID => (some messageID, none)
  StageInstanceService_CreateStageInstance := fun topic => (some topic, none)
  InviteService_DeleteInvite := fun _ => none
  EntityBuilder_CreateMessage := fun m _ => some m
  EntityBuilder_CreateStageInstance := fun s _ => some s
  AudioController_Connect := fun _ _ => none

/-- A channel `c1` of type `t` in guild `g1`, under category `p1`, with stage
instance `s1`, every optional field set. -/
def exampleChannel (t : ChannelType) : channelImpl exampleTypes where
  Channel :=
    { ID := "c1", Name := some "general", Type_ := t, LastMessageID := none,
      LastPinTimestamp := none, GuildID := some "g1", InteractionPermissions := some 0,
      ParentID := some "p1", Position := some 0, Bitrate := some 64000, NSFW := some false,
      Topic := none }
  disgo := exampleDisgo
  stageInstanceID := some "s1"

/-- The channel `exampleChannel t` with its guild identifier unset. -/
def exampleChannelNoGuild (t : ChannelType) : channelImpl exampleTypes :=
  { exampleChannel t with
    Channel := { (exampleChannel t).Channel with GuildID := none } }

/-- The channel `c` with its discriminant replaced by `t`. -/
def channelImpl.withType {T : Types} (c : channelImpl T) (t : ChannelType) : channelImpl T :=
  { c with Channel := { c.Channel with Type_ := t } }

/-- A route registry that compiles the invite template to
`https://discord.gg/<code>` and rejects an empty code. -/
def exampleRegistry : route.Registry String String where
  Compile := fun _ _ params =>
    match params with
    | [code] => if code = "" then .error "empty code" else .ok ("https://discord.gg/" ++ code)
    | _ => .error "wrong number of parameters"
  Route := fun url => url

end core

namespace rest

open discord route

/-- An instance of the undeclared types: everything is text. -/
@[reducible]
def exampleTypes : Types where
  Err := String
  CompiledAPIRoute := String
  Any := String
  RequestOpt := String
  Invite := String
  VoiceRegion := String
  Webhook := String
  Message := String

/-- A registry in which every compilation fails. -/
def failingRegistry : Registry String String where
  Compile := fun _ _ _ => .error "compilation failed"
  Route := fun url => url

/-- A registry in which every compilation succeeds; the compiled route is the
path values joined by `/`, followed by `?thread_id=<id>` when the query has a
snowflake under `thread_id`. -/
def workingRegistry : Registry String String where
  Compile := fun _ queryValues params =>
    match queryValues with
    | some q =>
      match q "thread_id" with
      | some (.snowflake id) => .ok ("/".intercalate params ++ "?thread_id=" ++ id)
      | _ => .ok ("/".intercalate params)
    | none => .ok ("/".intercalate params)
  Route := fun url => url

/-- A Request Executor that succeeds and fills every sink. -/
def exampleClient : Client exampleTypes where
  Do := fun compiledRoute _ rsBody _ =>
    match rsBody with
    | .nil => ((), none)
    | .invite => (some ("invite from " ++ compiledRoute), none)
    | .invites => (["invite from " ++ compiledRoute], none)
    | .regions => (["region from " ++ compiledRoute], none)
    | .unmarshalWebhook => (⟨some ("webhook from " ++ compiledRoute)⟩, none)
    | .message => (some ("message from " ++ compiledRoute), none)

/-- A Request Executor that fills every sink and still reports an error. -/
def refusingClient : Client exampleTypes where
  Do := fun compiledRoute _ rsBody _ =>
    match rsBody with
    | .nil => ((), some "403")
    | .invite => (some ("invite from " ++ compiledRoute), some "403")
    | .invites => (["invite from " ++ compiledRoute], some "403")
    | .regions => (["region from " ++ compiledRoute], some "403")
    | .unmarshalWebhook => (⟨some ("webhook from " ++ compiledRoute)⟩, some "403")
    | .message => (some ("message from " ++ compiledRoute), some "403")

/-- The three services over the succeeding executor, and the webhook service
over the refusing one. -/
def exampleInviteService : inviteServiceImpl exampleTypes := ⟨exampleClient⟩

def exampleVoiceService : voiceServiceImpl exampleTypes := ⟨exampleClient⟩

def exampleWebhookService : webhookServiceImpl exampleTypes := ⟨exampleClient⟩

def refusedWebhookService : webhookServiceImpl exampleTypes := ⟨refusingClient⟩

/-- A payload that serializes to the body `hello`. -/
def examplePayload : Payload exampleTypes where
  ToBody := .ok (some "hello")

/-- The query map of the webhook message operations read off the node-by-node
description: `wait` is present, with value `true`, exactly when `wait` was
requested; `thread_id` is present, with the thread identifier as value,
exactly when that identifier is non-empty; no other key is present. -/
def messageQuery (wait : Bool) (threadID : Snowflake) : QueryValues := fun key =>
  if key = "thread_id" then
    if threadID = "" then none else some (.snowflake threadID)
  else if key = "wait" then
    if wait then some (.bool true) else none
  else none

/-- The route compilations made in a run, in order. -/
def compilations {T : Types} {α : Type} (r : Run (Event T) α) : List (Event T) :=
  r.calls.filter Event.isCompile

end rest

/-- Whether a run ended in the unsupported-operation fault. -/
def Run.raisesUnsupported {C α : Type} (r : Run C α) : Bool :=
  match r.result with
  | .error p => p.isUnsupported
  | .ok _ => false

/-! ## Properties -/

/-- A recorded call followed by a continuation: the call comes first in the
record. -/
theorem Run.call_bind {C α β : Type} (c : C) (r : α) (f : α → Run C β) :
    (call c r >>= f) = ⟨c :: (f r).calls, (f r).result⟩ := rfl

namespace discord

/-- Sanity of the base64 transcription: with a destination of the right size
`Man` encodes to `TWFu` and `Ma` to `TWE=`. -/
theorem Encode_examples :
    Encode (List.replicate 4 0) (lit "Man") = .ok (lit "TWFu") ∧
    Encode (List.replicate 4 0) (lit "Ma") = .ok (lit "TWE=") ∧
    Encode (List.replicate 4 0) (lit "M") = .ok (lit "TQ==") := by
  refine ⟨?_, ?_, ?_⟩ <;> rfl

/-- C3: for every icon with type tag `t` and data `d`, `String()` is the empty
string when `d` is empty and otherwise `"data:" ++ t ++ ";base64," ++ d`, which
is the header of `GetHeader`, one comma, and the data bytes; `MarshalJSON`
encodes exactly the string `String()` returns. -/
theorem Icon.String_external_form {ρ : Type} (Marshal : GoString → ρ) (t : IconType) :
    Icon.String ⟨t, []⟩ = lit "" ∧
    (∀ (b : Byte) (bs : List Byte),
      Icon.String ⟨t, b :: bs⟩ = lit "data:" ++ t ++ lit ";base64," ++ (b :: bs) ∧
      Icon.String ⟨t, b :: bs⟩ = t.GetHeader ++ lit "," ++ (b :: bs)) ∧
    (∀ d : List Byte, Icon.MarshalJSON Marshal ⟨t, d⟩ = Marshal (Icon.String ⟨t, d⟩)) := by
  refine ⟨rfl, ?_, fun _ => rfl⟩
  intro b bs
  have hsplit : lit ";base64," = lit ";base64" ++ lit "," := by rfl
  constructor
  · simp [Icon.String, IconType.GetHeader, hsplit, List.append_assoc]
  · simp [Icon.String]

/-- C4 (what the code does): `NewIconRaw` hands the nil slice to
`base64.StdEncoding.Encode` as destination, so for every type and every
non-empty payload it panics with an index out of range and no icon is
constructed; only the empty payload yields an icon, with empty data, whose
`String()` is the empty string. -/
theorem NewIconRaw_nonempty_panics (t : IconType) :
    (∀ (b : Byte) (bs : List Byte), NewIconRaw t (b :: bs) = .error .indexOutOfRange) ∧
    NewIconRaw t [] = .ok ⟨t, []⟩ ∧
    Icon.String ⟨t, []⟩ = lit "" ∧
    NewIconRaw IconTypePNG [1] = .error .indexOutOfRange := by
  refine ⟨?_, rfl, rfl, rfl⟩
  intro b bs
  match bs with
  | [] => rfl
  | [_] => rfl
  | _ :: _ :: _ => rfl

end discord

namespace core

open discord

variable {T : Types}

/-- C2: each of the seven single-type predicates returns true exactly when the
channel's type is not the type it is named for, and so returns false on a
channel of that type. -/
theorem channelImpl.single_type_predicates (c : channelImpl T) :
    ((c.IsDMChannel = true ↔ c.Type_ ≠ .ChannelTypeDM) ∧
      (c.IsTextChannel = true ↔ c.Type_ ≠ .ChannelTypeText) ∧
      (c.IsVoiceChannel = true ↔ c.Type_ ≠ .ChannelTypeVoice) ∧
      (c.IsCategory = true ↔ c.Type_ ≠ .ChannelTypeCategory) ∧
      (c.IsNewsChannel = true ↔ c.Type_ ≠ .ChannelTypeNews) ∧
      (c.IsStoreChannel = true ↔ c.Type_ ≠ .ChannelTypeStore) ∧
      (c.IsStageChannel = true ↔ c.Type_ ≠ .ChannelTypeStage)) ∧
    ((c.withType .ChannelTypeDM).IsDMChannel = false ∧
      (c.withType .ChannelTypeText).IsTextChannel = false ∧
      (c.withType .ChannelTypeVoice).IsVoiceChannel = false ∧
      (c.withType .ChannelTypeCategory).IsCategory = false ∧
      (c.withType .ChannelTypeNews).IsNewsChannel = false ∧
      (c.withType .ChannelTypeStore).IsStoreChannel = false ∧
      (c.withType .ChannelTypeStage).IsStageChannel = false) := by
  refine ⟨⟨?_, ?_, ?_, ?_, ?_, ?_, ?_⟩, ⟨rfl, rfl, rfl, rfl, rfl, rfl, rfl⟩⟩ <;>
    simp [channelImpl.IsDMChannel, channelImpl.IsTextChannel, channelImpl.IsVoiceChannel,
      channelImpl.IsCategory, channelImpl.IsNewsChannel, channelImpl.IsStoreChannel,
      channelImpl.IsStageChannel]

/-- C1 (what the code does): the fault is not raised where the claim requires
it. On the guild-text channel `c1` of guild `g1`, which is neither
voice-capable nor stage-capable, `Connect` reaches the audio controller,
`Bitrate`, `StageInstance` and `IsModerator` return, and `CreateStageInstance`
reaches its Resource Service; `NSFW` returns on a guild-voice channel; and on
every channel, whatever its type, the four message operations and
`CrosspostMessage` start with their Resource Service call, having no guard. -/
theorem channelImpl.capability_guards_let_through (c : channelImpl T)
    (messageID : Snowflake) (messageIDs : List Snowflake) (messageCreate : T.MessageCreate)
    (messageUpdate : T.MessageUpdate) :
    (exampleChannel .ChannelTypeText).Connect
        = ⟨[.AudioController_Connect "g1" "c1"], .ok none⟩ ∧
    (exampleChannel .ChannelTypeText).Bitrate = ⟨[], .ok 64000⟩ ∧
    (exampleChannel .ChannelTypeVoice).NSFW = ⟨[], .ok false⟩ ∧
    (exampleChannel .ChannelTypeText).StageInstance = ⟨[], .ok (some "stage instance s1")⟩ ∧
    (exampleChannel .ChannelTypeText).CreateStageInstance "topic"
        = ⟨[.StageInstanceService_CreateStageInstance "topic"], .ok (some "topic", none)⟩ ∧
    (exampleChannel .ChannelTypeText).IsModerator none = ⟨[], .ok true⟩ ∧
    (c.CreateMessage messageCreate).calls
        = [.ChannelsService_CreateMessage c.ID messageCreate] ∧
    (c.UpdateMessage messageID messageUpdate).calls
        = [.ChannelsService_UpdateMessage c.ID messageID messageUpdate] ∧
    c.DeleteMessage messageID
        = ⟨[.ChannelsService_DeleteMessage c.ID messageID],
            .ok (c.disgo.ChannelsService_DeleteMessage c.ID messageID)⟩ ∧
    c.BulkDeleteMessages messageIDs
        = ⟨[.ChannelsService_BulkDeleteMessages c.ID messageIDs],
            .ok (c.disgo.ChannelsService_BulkDeleteMessages c.ID messageIDs)⟩ ∧
    (c.CrosspostMessage messageID).calls
        = [.ChannelsService_CrosspostMessage c.ID messageID] ∧
    (exampleChannel .ChannelTypeVoice).CreateMessage "hi"
        = ⟨[.ChannelsService_CreateMessage "c1" "hi"], .ok (some "hi", none)⟩ := by
  refine ⟨rfl, rfl, rfl, rfl, rfl, rfl, ?_, ?_, rfl, rfl, ?_, rfl⟩
  · unfold channelImpl.CreateMessage
    generalize c.Disgo.ChannelsService_CreateMessage c.ID messageCreate = r
    obtain ⟨m, e⟩ := r
    cases e <;> cases m <;> rfl
  · unfold channelImpl.UpdateMessage
    generalize c.Disgo.ChannelsService_UpdateMessage c.ID messageID messageUpdate = r
    obtain ⟨m, e⟩ := r
    cases e <;> cases m <;> rfl
  · unfold channelImpl.CrosspostMessage
    generalize c.Disgo.ChannelsService_CrosspostMessage c.ID messageID = r
    obtain ⟨m, e⟩ := r
    cases e <;> cases m <;> rfl

/-- C6: `URL()` compiles the `InviteURL` template with the nil query map and
the invite code as the only path value; it returns the compiled route's string
when compilation succeeds and the empty string when it fails; it neither
panics nor calls a Resource Service; and the result depends on the invite
through its code alone, so repeated calls agree. -/
theorem Invite.URL_of_code (R : route.Registry T.Err T.CompiledRoute) (i : Invite T) :
    i.URL R = ⟨[], .ok (match R.Compile .InviteURL none [i.Code] with
      | .ok url => R.Route url
      | .error _ => "")⟩ ∧
    (∀ (d : core.Disgo T) (inviter targetUser : Option T.User),
      Invite.URL R ⟨i.Code, d, inviter, targetUser⟩ = i.URL R) ∧
    (Invite.URL exampleRegistry ⟨"abc", exampleDisgo, none, none⟩
        = ⟨[], .ok "https://discord.gg/abc"⟩ ∧
      Invite.URL exampleRegistry ⟨"", exampleDisgo, none, none⟩ = ⟨[], .ok ""⟩) := by
  refine ⟨?_, fun _ _ _ => rfl, rfl, ?_⟩
  · unfold Invite.URL
    cases R.Compile .InviteURL none [i.Code] <;> rfl
  · rfl

/-- C7 as stated fails: on the guild-text channel `c1` with no guild
identifier `Guild` raises the unsupported-operation fault instead of returning
absent. -/
theorem channelImpl.Guild_unset_guild_faults :
    (exampleChannelNoGuild .ChannelTypeText).Channel.GuildID = none ∧
    (exampleChannelNoGuild .ChannelTypeText).Guild = ⟨[], .error .unsupportedOperation⟩ ∧
    (exampleChannelNoGuild .ChannelTypeText).Guild.raisesUnsupported = true := by
  refine ⟨rfl, rfl, rfl⟩

/-- C7, amended: on a channel of a guild discriminant (any but direct-message)
`Parent` and `Guild` call no Resource Service; `Parent` does not fault and
returns absent when the parent identifier is unset and the category cache's
answer for it otherwise; `Guild` raises the unsupported-operation fault when
the guild identifier is unset and returns the guild cache's answer for it
otherwise. `StageInstance` calls no Resource Service on any channel. -/
theorem channelImpl.cache_lookups (c : channelImpl T) :
    (c.Type_ ≠ .ChannelTypeDM →
      c.Parent = ⟨[], .ok (match c.Channel.ParentID with
        | none => none
        | some parentID => c.disgo.CategoryCache_Get parentID)⟩ ∧
      c.Guild = (match c.Channel.GuildID with
        | none => ⟨[], .error .unsupportedOperation⟩
        | some guildID => ⟨[], .ok (c.disgo.GuildCache_Get guildID)⟩)) ∧
    c.StageInstance.calls = [] := by
  obtain ⟨⟨id, name, ty, lm, lp, g, ip, pid, pos, br, nsfw, topic⟩, d, sid⟩ := c
  refine ⟨?_, ?_⟩
  · intro _
    constructor
    · cases ty <;> cases pid <;> rfl
    · cases ty <;> cases g <;> rfl
  · cases ty <;> cases sid <;> rfl

/-- C7, amended, at the guild-text channel `c1`: parent `p1` and guild `g1`
come from the caches; with the guild identifier unset `Parent` still answers
and `Guild` raises the fault. -/
theorem channelImpl.cache_lookups_witness :
    (exampleChannel .ChannelTypeText).Type_ ≠ .ChannelTypeDM ∧
    (exampleChannel .ChannelTypeText).Parent = ⟨[], .ok (some "category p1")⟩ ∧
    (exampleChannel .ChannelTypeText).Guild = ⟨[], .ok (some "guild g1")⟩ ∧
    (exampleChannelNoGuild .ChannelTypeText).Parent = ⟨[], .ok (some "category p1")⟩ ∧
    (exampleChannelNoGuild .ChannelTypeText).Guild = ⟨[], .error .unsupportedOperation⟩ :=
  have h := channelImpl.cache_lookups (exampleChannel .ChannelTypeText)
  have h0 := channelImpl.cache_lookups (exampleChannelNoGuild .ChannelTypeText)
  ⟨by decide, (h.1 (by decide)).1, (h.1 (by decide)).2, (h0.1 (by decide)).1,
    (h0.1 (by decide)).2⟩

/-- C8 (what the code does): on every channel of type guild-stage and for every
member argument, absent or not, `IsModerator` raises the fault of
`unsupported(c)` and returns nothing; it returns true on a channel of another
type, such as guild-text. -/
theorem channelImpl.IsModerator_on_stage_faults (c : channelImpl T) (member : Option T.Member) :
    (c.withType .ChannelTypeStage).IsModerator member
      = ⟨[], .error (.unsupportedFor .ChannelTypeStage)⟩ ∧
    (exampleChannel .ChannelTypeStage).IsModerator none
      = ⟨[], .error (.unsupportedFor .ChannelTypeStage)⟩ ∧
    (c.withType .ChannelTypeText).IsModerator member = ⟨[], .ok true⟩ := by
  refine ⟨rfl, rfl, rfl⟩

end core

namespace rest

open discord route

variable {T : Types}

/-- The map the webhook message operations build key by key is `messageQuery`. -/
theorem messageQuery_eq (wait : Bool) (threadID : Snowflake) :
    (if threadID ≠ "" then
        (if wait then QueryValues.empty.set "wait" (.bool true) else QueryValues.empty).set
          "thread_id" (.snowflake threadID)
      else (if wait then QueryValues.empty.set "wait" (.bool true) else QueryValues.empty))
      = messageQuery wait threadID := by
  funext key
  by_cases ht : threadID = "" <;> by_cases hk : key = "thread_id" <;>
    by_cases hw : key = "wait" <;> cases wait <;>
    simp_all [messageQuery, QueryValues.set, QueryValues.empty]

/-- The map `UpdateMessage` and `DeleteMessage` build is `messageQuery false`. -/
theorem messageQuery_false_eq (threadID : Snowflake) :
    (if threadID ≠ "" then QueryValues.empty.set "thread_id" (.snowflake threadID)
      else QueryValues.empty) = messageQuery false threadID := by
  funext key
  by_cases ht : threadID = "" <;> by_cases hk : key = "thread_id" <;>
    by_cases hw : key = "wait" <;>
    simp_all [messageQuery, QueryValues.set, QueryValues.empty]

/-- The run of `GetInvite`, by the outcome of its route compilation. -/
theorem inviteServiceImpl.GetInvite_run (R : Registry T.Err T.CompiledAPIRoute)
    (s : inviteServiceImpl T) (code : String) (opts : List T.RequestOpt) :
    s.GetInvite R code opts =
      match R.Compile .GetInvite none [code] with
      | .error err => ⟨[.Compile .GetInvite none [code]], .ok (none, some err)⟩
      | .ok compiledRoute =>
        ⟨[.Compile .GetInvite none [code],
            .Do compiledRoute none .invite opts],
          .ok ((s.restClient.Do compiledRoute none .invite opts).1, (s.restClient.Do compiledRoute none .invite opts).2)⟩ := by
  simp only [inviteServiceImpl.GetInvite, compile, Client.invoke, Run.call_bind]
  cases R.Compile .GetInvite none [code] <;> rfl

/-- The run of `CreateInvite`, by the outcome of its route compilation. -/
theorem inviteServiceImpl.CreateInvite_run (R : Registry T.Err T.CompiledAPIRoute)
    (s : inviteServiceImpl T) (channelID : Snowflake) (inviteCreate : T.Any) (opts : List T.RequestOpt) :
    s.CreateInvite R channelID inviteCreate opts =
      match R.Compile .CreateInvite none [channelID] with
      | .error err => ⟨[.Compile .CreateInvite none [channelID]], .ok (none, some err)⟩
      | .ok compiledRoute =>
        ⟨[.Compile .CreateInvite none [channelID],
            .Do compiledRoute (some inviteCreate) .invite opts],
          .ok ((s.restClient.Do compiledRoute (some inviteCreate) .invite opts).1, (s.restClient.Do compiledRoute (some inviteCreate) .invite opts).2)⟩ := by
  simp only [inviteServiceImpl.CreateInvite, compile, Client.invoke, Run.call_bind]
  cases R.Compile .CreateInvite none [channelID] <;> rfl

/-- The run of `DeleteInvite`, by the outcome of its route compilation. -/
theorem inviteServiceImpl.DeleteInvite_run (R : Registry T.Err T.CompiledAPIRoute)
    (s : inviteServiceImpl T) (code : String) (opts : List T.RequestOpt) :
    s.DeleteInvite R code opts =
      match R.Compile .DeleteInvite none [code] with
      | .error err => ⟨[.Compile .DeleteInvite none [code]], .ok (none, some err)⟩
      | .ok compiledRoute =>
        ⟨[.Compile .DeleteInvite none [code],
            .Do compiledRoute none .invite opts],
          .ok ((s.restClient.Do compiledRoute none .invite opts).1, (s.restClient.Do compiledRoute none .invite opts).2)⟩ := by
  simp only [inviteServiceImpl.DeleteInvite, compile, Client.invoke, Run.call_bind]
  cases R.Compile .DeleteInvite none [code] <;> rfl

/-- The run of `GetGuildInvites`, by the outcome of its route compilation. -/
theorem inviteServiceImpl.GetGuildInvites_run (R : Registry T.Err T.CompiledAPIRoute)
    (s : inviteServiceImpl T) (guildID : Snowflake) (opts : List T.RequestOpt) :
    s.GetGuildInvites R guildID opts =
      match R.Compile .GetGuildInvites none [guildID] with
      | .error err => ⟨[.Compile .GetGuildInvites none [guildID]], .ok ([], some err)⟩
      | .ok compiledRoute =>
        ⟨[.Compile .GetGuildInvites none [guildID],
            .Do compiledRoute none .invites opts],
          .ok ((s.restClient.Do compiledRoute none .invites opts).1, (s.restClient.Do compiledRoute none .invites opts).2)⟩ := by
  simp only [inviteServiceImpl.GetGuildInvites, compile, Client.invoke, Run.call_bind]
  cases R.Compile .GetGuildInvites none [guildID] <;> rfl

/-- The run of `GetChannelInvites`, by the outcome of its route compilation. -/
theorem inviteServiceImpl.GetChannelInvites_run (R : Registry T.Err T.CompiledAPIRoute)
    (s : inviteServiceImpl T) (channelID : Snowflake) (opts : List T.RequestOpt) :
    s.GetChannelInvites R channelID opts =
      match R.Compile .GetChannelInvites none [channelID] with
      | .error err => ⟨[.Compile .GetChannelInvites none [channelID]], .ok ([], some err)⟩
      | .ok compiledRoute =>
        ⟨[.Compile .GetChannelInvites none [channelID],
            .Do compiledRoute none .invites opts],
          .ok ((s.restClient.Do compiledRoute none .invites opts).1, (s.restClient.Do compiledRoute none .invites opts).2)⟩ := by
  simp only [inviteServiceImpl.GetChannelInvites, compile, Client.invoke, Run.call_bind]
  cases R.Compile .GetChannelInvites none [channelID] <;> rfl

/-- The run of `GetVoiceRegions`, by the outcome of its route compilation. -/
theorem voiceServiceImpl.GetVoiceRegions_run (R : Registry T.Err T.CompiledAPIRoute)
    (s : voiceServiceImpl T) (opts : List T.RequestOpt) :
    s.GetVoiceRegions R opts =
      match R.Compile .GetVoiceRegions none [] with
      | .error err => ⟨[.Compile .GetVoiceRegions none []], .ok ([], some err)⟩
      | .ok compiledRoute =>
        ⟨[.Compile .GetVoiceRegions none [],
            .Do compiledRoute none .regions opts],
          .ok ((s.restClient.Do compiledRoute none .regions opts).1, (s.restClient.Do compiledRoute none .regions opts).2)⟩ := by
  simp only [voiceServiceImpl.GetVoiceRegions, compile, Client.invoke, Run.call_bind]
  cases R.Compile .GetVoiceRegions none [] <;> rfl

/-- The run of `GetWebhook`, by the outcome of its route compilation. -/
theorem webhookServiceImpl.GetWebhook_run (R : Registry T.Err T.CompiledAPIRoute)
    (s : webhookServiceImpl T) (webhookID : Snowflake) (opts : List T.RequestOpt) :
    s.GetWebhook R webhookID opts =
      match R.Compile .GetWebhook none [webhookID] with
      | .error err => ⟨[.Compile .GetWebhook none [webhookID]], .ok (none, some err)⟩
      | .ok compiledRoute =>
        ⟨[.Compile .GetWebhook none [webhookID],
            .Do compiledRoute none .unmarshalWebhook opts],
          .ok (if (s.restClient.Do compiledRoute none .unmarshalWebhook opts).2.isNone then (s.restClient.Do compiledRoute none .unmarshalWebhook opts).1.Webhook else none, (s.restClient.Do compiledRoute none .unmarshalWebhook opts).2)⟩ := by
  simp only [webhookServiceImpl.GetWebhook, compile, Client.invoke, Run.call_bind]
  cases R.Compile .GetWebhook none [webhookID] with
  | error e => rfl
  | ok r =>
    dsimp only
    generalize s.restClient.Do r none .unmarshalWebhook opts = x
    obtain ⟨u, e⟩ := x
    cases e <;> rfl

/-- The run of `UpdateWebhook`, by the outcome of its route compilation. -/
theorem webhookServiceImpl.UpdateWebhook_run (R : Registry T.Err T.CompiledAPIRoute)
    (s : webhookServiceImpl T) (webhookID : Snowflake) (webhookUpdate : T.Any) (opts : List T.RequestOpt) :
    s.UpdateWebhook R webhookID webhookUpdate opts =
      match R.Compile .UpdateWebhook none [webhookID] with
      | .error err => ⟨[.Compile .UpdateWebhook none [webhookID]], .ok (none, some err)⟩
      | .ok compiledRoute =>
        ⟨[.Compile .UpdateWebhook none [webhookID],
            .Do compiledRoute (some webhookUpdate) .unmarshalWebhook opts],
          .ok (if (s.restClient.Do compiledRoute (some webhookUpdate) .unmarshalWebhook opts).2.isNone then (s.restClient.Do compiledRoute (some webhookUpdate) .unmarshalWebhook opts).1.Webhook else none, (s.restClient.Do compiledRoute (some webhookUpdate) .unmarshalWebhook opts).2)⟩ := by
  simp only [webhookServiceImpl.UpdateWebhook, compile, Client.invoke, Run.call_bind]
  cases R.Compile .UpdateWebhook none [webhookID] with
  | error e => rfl
  | ok r =>
    dsimp only
    generalize s.restClient.Do r (some webhookUpdate) .unmarshalWebhook opts = x
    obtain ⟨u, e⟩ := x
    cases e <;> rfl

/-- The run of `DeleteWebhook`, by the outcome of its route compilation. -/
theorem webhookServiceImpl.DeleteWebhook_run (R : Registry T.Err T.CompiledAPIRoute)
    (s : webhookServiceImpl T) (webhookID : Snowflake) (opts : List T.RequestOpt) :
    s.DeleteWebhook R webhookID opts =
      match R.Compile .DeleteWebhook none [webhookID] with
      | .error err => ⟨[.Compile .DeleteWebhook none [webhookID]], .ok (some err)⟩
      | .ok compiledRoute =>
        ⟨[.Compile .DeleteWebhook none [webhookID],
            .Do compiledRoute none .nil opts],
          .ok (s.restClient.Do compiledRoute none .nil opts).2⟩ := by
  simp only [webhookServiceImpl.DeleteWebhook, compile, Client.invoke, Run.call_bind]
  cases R.Compile .DeleteWebhook none [webhookID] <;> rfl

/-- The run of `GetWebhookWithToken`, by the outcome of its route compilation. -/
theorem webhookServiceImpl.GetWebhookWithToken_run (R : Registry T.Err T.CompiledAPIRoute)
    (s : webhookServiceImpl T) (webhookID : Snowflake) (webhookToken : String) (opts : List T.RequestOpt) :
    s.GetWebhookWithToken R webhookID webhookToken opts =
      match R.Compile .GetWebhookWithToken none [webhookID, webhookToken] with
      | .error err => ⟨[.Compile .GetWebhookWithToken none [webhookID, webhookToken]], .ok (none, some err)⟩
      | .ok compiledRoute =>
        ⟨[.Compile .GetWebhookWithToken none [webhookID, webhookToken],
            .Do compiledRoute none .unmarshalWebhook opts],
          .ok (if (s.restClient.Do compiledRoute none .unmarshalWebhook opts).2.isNone then (s.restClient.Do compiledRoute none .unmarshalWebhook opts).1.Webhook else none, (s.restClient.Do compiledRoute none .unmarshalWebhook opts).2)⟩ := by
  simp only [webhookServiceImpl.GetWebhookWithToken, compile, Client.invoke, Run.call_bind]
  cases R.Compile .GetWebhookWithToken none [webhookID, webhookToken] with
  | error e => rfl
  | ok r =>
    dsimp only
    generalize s.restClient.Do r none .unmarshalWebhook opts = x
    obtain ⟨u, e⟩ := x
    cases e <;> rfl

/-- The run of `UpdateWebhookWithToken`, by the outcome of its route compilation. -/
theorem webhookServiceImpl.UpdateWebhookWithToken_run (R : Registry T.Err T.CompiledAPIRoute)
    (s : webhookServiceImpl T) (webhookID : Snowflake) (webhookToken : String) (webhookUpdate : T.Any) (opts : List T.RequestOpt) :
    s.UpdateWebhookWithToken R webhookID webhookToken webhookUpdate opts =
      match R.Compile .UpdateWebhookWithToken none [webhookID, webhookToken] with
      | .error err => ⟨[.Compile .UpdateWebhookWithToken none [webhookID, webhookToken]], .ok (none, some err)⟩
      | .ok compiledRoute =>
        ⟨[.Compile .UpdateWebhookWithToken none [webhookID, webhookToken],
            .Do compiledRoute (some webhookUpdate) .unmarshalWebhook opts],
          .ok (if (s.restClient.Do compiledRoute (some webhookUpdate) .unmarshalWebhook opts).2.isNone then (s.restClient.Do compiledRoute (some webhookUpdate) .unmarshalWebhook opts).1.Webhook else none, (s.restClient.Do compiledRoute (some webhookUpdate) .unmarshalWebhook opts).2)⟩ := by
  simp only [webhookServiceImpl.UpdateWebhookWithToken, compile, Client.invoke, Run.call_bind]
  cases R.Compile .UpdateWebhookWithToken none [webhookID, webhookToken] with
  | error e => rfl
  | ok r =>
    dsimp only
    generalize s.restClient.Do r (some webhookUpdate) .unmarshalWebhook opts = x
    obtain ⟨u, e⟩ := x
    cases e <;> rfl

/-- The run of `DeleteWebhookWithToken`, by the outcome of its route compilation. -/
theorem webhookServiceImpl.DeleteWebhookWithToken_run (R : Registry T.Err T.CompiledAPIRoute)
    (s : webhookServiceImpl T) (webhookID : Snowflake) (webhookToken : String) (opts : List T.RequestOpt) :
    s.DeleteWebhookWithToken R webhookID webhookToken opts =
      match R.Compile .DeleteWebhookWithToken none [webhookID, webhookToken] with
      | .error err => ⟨[.Compile .DeleteWebhookWithToken none [webhookID, webhookToken]], .ok (some err)⟩
      | .ok compiledRoute =>
        ⟨[.Compile .DeleteWebhookWithToken none [webhookID, webhookToken],
            .Do compiledRoute none .nil opts],
          .ok (s.restClient.Do compiledRoute none .nil opts).2⟩ := by
  simp only [webhookServiceImpl.DeleteWebhookWithToken, compile, Client.invoke, Run.call_bind]
  cases R.Compile .DeleteWebhookWithToken none [webhookID, webhookToken] <;> rfl

/-- The run of `createMessage`, by the outcome of its route compilation, of the
serialization of its body, and by `wait`. -/
theorem webhookServiceImpl.createMessage_run (R : Registry T.Err T.CompiledAPIRoute)
    (s : webhookServiceImpl T) (webhookID : Snowflake) (webhookToken : String)
    (messageCreate : Payload T) (wait : Bool) (threadID : Snowflake) (apiRoute : APIRoute)
    (opts : List T.RequestOpt) :
    s.createMessage R webhookID webhookToken messageCreate wait threadID apiRoute opts =
      match R.Compile apiRoute (some (messageQuery wait threadID)) [webhookID, webhookToken] with
      | .error err =>
        ⟨[.Compile apiRoute (some (messageQuery wait threadID)) [webhookID, webhookToken]],
          .ok (none, some err)⟩
      | .ok compiledRoute =>
        match messageCreate.ToBody with
        | .error err =>
          ⟨[.Compile apiRoute (some (messageQuery wait threadID)) [webhookID, webhookToken]],
            .ok (none, some err)⟩
        | .ok body =>
          if wait then
            ⟨[.Compile apiRoute (some (messageQuery wait threadID)) [webhookID, webhookToken],
                .Do compiledRoute body .message opts],
              .ok ((s.restClient.Do compiledRoute body .message opts).1,
                (s.restClient.Do compiledRoute body .message opts).2)⟩
          else
            ⟨[.Compile apiRoute (some (messageQuery wait threadID)) [webhookID, webhookToken],
                .Do compiledRoute body .nil opts],
              .ok (none, (s.restClient.Do compiledRoute body .nil opts).2)⟩ := by
  simp only [webhookServiceImpl.createMessage, compile, Client.invoke, Run.call_bind,
    messageQuery_eq]
  cases R.Compile apiRoute (some (messageQuery wait threadID)) [webhookID, webhookToken] with
  | error e => rfl
  | ok r =>
    cases messageCreate.ToBody with
    | error e => rfl
    | ok body => cases wait <;> rfl

/-- The run of `UpdateMessage`, by the outcome of its route compilation and of
the serialization of its body. -/
theorem webhookServiceImpl.UpdateMessage_run (R : Registry T.Err T.CompiledAPIRoute)
    (s : webhookServiceImpl T) (webhookID : Snowflake) (webhookToken : String)
    (messageID : Snowflake) (messageUpdate : Payload T) (threadID : Snowflake)
    (opts : List T.RequestOpt) :
    s.UpdateMessage R webhookID webhookToken messageID messageUpdate threadID opts =
      match R.Compile .UpdateWebhookMessage (some (messageQuery false threadID))
          [webhookID, webhookToken, messageID] with
      | .error err =>
        ⟨[.Compile .UpdateWebhookMessage (some (messageQuery false threadID))
            [webhookID, webhookToken, messageID]], .ok (none, some err)⟩
      | .ok compiledRoute =>
        match messageUpdate.ToBody with
        | .error err =>
          ⟨[.Compile .UpdateWebhookMessage (some (messageQuery false threadID))
              [webhookID, webhookToken, messageID]], .ok (none, some err)⟩
        | .ok body =>
          ⟨[.Compile .UpdateWebhookMessage (some (messageQuery false threadID))
                [webhookID, webhookToken, messageID],
              .Do compiledRoute body .message opts],
            .ok ((s.restClient.Do compiledRoute body .message opts).1,
              (s.restClient.Do compiledRoute body .message opts).2)⟩ := by
  simp only [webhookServiceImpl.UpdateMessage, compile, Client.invoke, Run.call_bind,
    messageQuery_false_eq]
  cases R.Compile .UpdateWebhookMessage (some (messageQuery false threadID))
      [webhookID, webhookToken, messageID] with
  | error e => rfl
  | ok r => cases messageUpdate.ToBody <;> rfl

/-- The run of `DeleteMessage`, by the outcome of its route compilation. -/
theorem webhookServiceImpl.DeleteMessage_run (R : Registry T.Err T.CompiledAPIRoute)
    (s : webhookServiceImpl T) (webhookID : Snowflake) (webhookToken : String)
    (messageID : Snowflake) (threadID : Snowflake) (opts : List T.RequestOpt) :
    s.DeleteMessage R webhookID webhookToken messageID threadID opts =
      match R.Compile .DeleteWebhookMessage (some (messageQuery false threadID))
          [webhookID, webhookToken, messageID] with
      | .error err =>
        ⟨[.Compile .DeleteWebhookMessage (some (messageQuery false threadID))
            [webhookID, webhookToken, messageID]], .ok (some err)⟩
      | .ok compiledRoute =>
        ⟨[.Compile .DeleteWebhookMessage (some (messageQuery false threadID))
              [webhookID, webhookToken, messageID],
            .Do compiledRoute none .nil opts],
          .ok (s.restClient.Do compiledRoute none .nil opts).2⟩ := by
  simp only [webhookServiceImpl.DeleteMessage, compile, Client.invoke, Run.call_bind,
    messageQuery_false_eq]
  cases R.Compile .DeleteWebhookMessage (some (messageQuery false threadID))
      [webhookID, webhookToken, messageID] <;> rfl

/-- C5: in every run of webhook `CreateMessage`, `CreateMessageSlack` and
`CreateMessageGitHub` the one route compilation receives the query map
`messageQuery wait threadID`, which holds `true` under `wait` exactly when
`wait` is true, `threadID` under `thread_id` exactly when `threadID` is
non-empty (so `123` for the thread `123`), and nothing under any other key;
`UpdateMessage` and `DeleteMessage` pass `messageQuery false threadID`, which
can only hold `thread_id`. -/
theorem webhookServiceImpl.message_query_values (R : Registry T.Err T.CompiledAPIRoute)
    (sw : webhookServiceImpl T) (webhookID messageID threadID : Snowflake)
    (webhookToken : String) (messageCreate messageUpdate : Payload T) (wait : Bool)
    (opts : List T.RequestOpt) :
    compilations (sw.CreateMessage R webhookID webhookToken messageCreate wait threadID opts)
      = [.Compile .CreateWebhookMessage (some (messageQuery wait threadID)) [webhookID, webhookToken]] ∧
    compilations (sw.CreateMessageSlack R webhookID webhookToken messageCreate wait threadID opts)
      = [.Compile .CreateWebhookMessageSlack (some (messageQuery wait threadID)) [webhookID, webhookToken]] ∧
    compilations (sw.CreateMessageGitHub R webhookID webhookToken messageCreate wait threadID opts)
      = [.Compile .CreateWebhookMessageGitHub (some (messageQuery wait threadID)) [webhookID, webhookToken]] ∧
    compilations (sw.UpdateMessage R webhookID webhookToken messageID messageUpdate threadID opts)
      = [.Compile .UpdateWebhookMessage (some (messageQuery false threadID))
          [webhookID, webhookToken, messageID]] ∧
    compilations (sw.DeleteMessage R webhookID webhookToken messageID threadID opts)
      = [.Compile .DeleteWebhookMessage (some (messageQuery false threadID))
          [webhookID, webhookToken, messageID]] ∧
    messageQuery wait threadID "wait" = (if wait then some (.bool true) else none) ∧
    messageQuery wait threadID "thread_id"
      = (if threadID = "" then none else some (.snowflake threadID)) ∧
    (∀ key : String, key = "wait" ∨ key = "thread_id" ∨ messageQuery wait threadID key = none) ∧
    messageQuery wait "123" "thread_id" = some (.snowflake "123") ∧
    workingRegistry.Compile .CreateWebhookMessage (some (messageQuery false "123")) ["1", "tok"]
      = .ok "1/tok?thread_id=123"  := by
  refine ⟨?_, ?_, ?_, ?_, ?_, ?_, ?_, ?_, ?_, ?_⟩
  · rw [webhookServiceImpl.CreateMessage, webhookServiceImpl.createMessage_run]
    cases R.Compile .CreateWebhookMessage (some (messageQuery wait threadID))
        [webhookID, webhookToken] with
    | error e => rfl
    | ok r => cases messageCreate.ToBody <;> cases wait <;> rfl
  · rw [webhookServiceImpl.CreateMessageSlack, webhookServiceImpl.createMessage_run]
    cases R.Compile .CreateWebhookMessageSlack (some (messageQuery wait threadID))
        [webhookID, webhookToken] with
    | error e => rfl
    | ok r => cases messageCreate.ToBody <;> cases wait <;> rfl
  · rw [webhookServiceImpl.CreateMessageGitHub, webhookServiceImpl.createMessage_run]
    cases R.Compile .CreateWebhookMessageGitHub (some (messageQuery wait threadID))
        [webhookID, webhookToken] with
    | error e => rfl
    | ok r => cases messageCreate.ToBody <;> cases wait <;> rfl
  · rw [webhookServiceImpl.UpdateMessage_run]
    cases R.Compile .UpdateWebhookMessage (some (messageQuery false threadID))
        [webhookID, webhookToken, messageID] with
    | error e => rfl
    | ok r => cases messageUpdate.ToBody <;> rfl
  · rw [webhookServiceImpl.DeleteMessage_run]
    cases R.Compile .DeleteWebhookMessage (some (messageQuery false threadID))
        [webhookID, webhookToken, messageID] <;> rfl
  · cases wait <;> simp [messageQuery]
  · simp [messageQuery]
  · intro key
    by_cases hw : key = "wait"
    · exact Or.inl hw
    · by_cases hk : key = "thread_id"
      · exact Or.inr (Or.inl hk)
      · exact Or.inr (Or.inr (by simp [messageQuery, hw, hk]))
  · simp [messageQuery]
  · rfl

/-- C9: for each public operation of the invite, voice and webhook services, if
the compilation of its route fails with error `e`, the operation stops there:
its run holds the compilation and nothing else, so the Request Executor is
invoked zero times, and it returns `e` with the zero value of its result
(absent invite, webhook or message, empty list; `e` alone for the delete
operations). -/
theorem compile_failure_stops (R : Registry T.Err T.CompiledAPIRoute)
    (si : inviteServiceImpl T) (sv : voiceServiceImpl T) (sw : webhookServiceImpl T)
    (code : String) (channelID guildID webhookID messageID threadID : Snowflake)
    (webhookToken : String) (inviteCreate webhookUpdate : T.Any)
    (messageCreate messageUpdate : Payload T) (wait : Bool) (opts : List T.RequestOpt)
    (e : T.Err) :
    (R.Compile .GetInvite none [code] = .error e →
      si.GetInvite R code opts
          = ⟨[.Compile .GetInvite none [code]], .ok (none, some e)⟩ ∧
        doCount (si.GetInvite R code opts) = 0) ∧
    (R.Compile .CreateInvite none [channelID] = .error e →
      si.CreateInvite R channelID inviteCreate opts
          = ⟨[.Compile .CreateInvite none [channelID]], .ok (none, some e)⟩ ∧
        doCount (si.CreateInvite R channelID inviteCreate opts) = 0) ∧
    (R.Compile .DeleteInvite none [code] = .error e →
      si.DeleteInvite R code opts
          = ⟨[.Compile .DeleteInvite none [code]], .ok (none, some e)⟩ ∧
        doCount (si.DeleteInvite R code opts) = 0) ∧
    (R.Compile .GetGuildInvites none [guildID] = .error e →
      si.GetGuildInvites R guildID opts
          = ⟨[.Compile .GetGuildInvites none [guildID]], .ok ([], some e)⟩ ∧
        doCount (si.GetGuildInvites R guildID opts) = 0) ∧
    (R.Compile .GetChannelInvites none [channelID] = .error e →
      si.GetChannelInvites R channelID opts
          = ⟨[.Compile .GetChannelInvites none [channelID]], .ok ([], some e)⟩ ∧
        doCount (si.GetChannelInvites R channelID opts) = 0) ∧
    (R.Compile .GetVoiceRegions none [] = .error e →
      sv.GetVoiceRegions R opts
          = ⟨[.Compile .GetVoiceRegions none []], .ok ([], some e)⟩ ∧
        doCount (sv.GetVoiceRegions R opts) = 0) ∧
    (R.Compile .GetWebhook none [webhookID] = .error e →
      sw.GetWebhook R webhookID opts
          = ⟨[.Compile .GetWebhook none [webhookID]], .ok (none, some e)⟩ ∧
        doCount (sw.GetWebhook R webhookID opts) = 0) ∧
    (R.Compile .UpdateWebhook none [webhookID] = .error e →
      sw.UpdateWebhook R webhookID webhookUpdate opts
          = ⟨[.Compile .UpdateWebhook none [webhookID]], .ok (none, some e)⟩ ∧
        doCount (sw.UpdateWebhook R webhookID webhookUpdate opts) = 0) ∧
    (R.Compile .DeleteWebhook none [webhookID] = .error e →
      sw.DeleteWebhook R webhookID opts
          = ⟨[.Compile .DeleteWebhook none [webhookID]], .ok (some e)⟩ ∧
        doCount (sw.DeleteWebhook R webhookID opts) = 0) ∧
    (R.Compile .GetWebhookWithToken none [webhookID, webhookToken] = .error e →
      sw.GetWebhookWithToken R webhookID webhookToken opts
          = ⟨[.Compile .GetWebhookWithToken none [webhookID, webhookToken]], .ok (none, some e)⟩ ∧
        doCount (sw.GetWebhookWithToken R webhookID webhookToken opts) = 0) ∧
    (R.Compile .UpdateWebhookWithToken none [webhookID, webhookToken] = .error e →
      sw.UpdateWebhookWithToken R webhookID webhookToken webhookUpdate opts
          = ⟨[.Compile .UpdateWebhookWithToken none [webhookID, webhookToken]], .ok (none, some e)⟩ ∧
        doCount (sw.UpdateWebhookWithToken R webhookID webhookToken webhookUpdate opts) = 0) ∧
    (R.Compile .DeleteWebhookWithToken none [webhookID, webhookToken] = .error e →
      sw.DeleteWebhookWithToken R webhookID webhookToken opts
          = ⟨[.Compile .DeleteWebhookWithToken none [webhookID, webhookToken]], .ok (some e)⟩ ∧
        doCount (sw.DeleteWebhookWithToken R webhookID webhookToken opts) = 0) ∧
    (R.Compile .CreateWebhookMessage (some (messageQuery wait threadID)) [webhookID, webhookToken] = .error e →
      sw.CreateMessage R webhookID webhookToken messageCreate wait threadID opts
          = ⟨[.Compile .CreateWebhookMessage (some (messageQuery wait threadID)) [webhookID, webhookToken]],
              .ok (none, some e)⟩ ∧
        doCount (sw.CreateMessage R webhookID webhookToken messageCreate wait threadID opts) = 0) ∧
    (R.Compile .CreateWebhookMessageSlack (some (messageQuery wait threadID)) [webhookID, webhookToken] = .error e →
      sw.CreateMessageSlack R webhookID webhookToken messageCreate wait threadID opts
          = ⟨[.Compile .CreateWebhookMessageSlack (some (messageQuery wait threadID)) [webhookID, webhookToken]],
              .ok (none, some e)⟩ ∧
        doCount (sw.CreateMessageSlack R webhookID webhookToken messageCreate wait threadID opts) = 0) ∧
    (R.Compile .CreateWebhookMessageGitHub (some (messageQuery wait threadID)) [webhookID, webhookToken] = .error e →
      sw.CreateMessageGitHub R webhookID webhookToken messageCreate wait threadID opts
          = ⟨[.Compile .CreateWebhookMessageGitHub (some (messageQuery wait threadID)) [webhookID, webhookToken]],
              .ok (none, some e)⟩ ∧
        doCount (sw.CreateMessageGitHub R webhookID webhookToken messageCreate wait threadID opts) = 0) ∧
    (R.Compile .UpdateWebhookMessage (some (messageQuery false threadID))
          [webhookID, webhookToken, messageID] = .error e →
      sw.UpdateMessage R webhookID webhookToken messageID messageUpdate threadID opts
          = ⟨[.Compile .UpdateWebhookMessage (some (messageQuery false threadID))
          [webhookID, webhookToken, messageID]],
              .ok (none, some e)⟩ ∧
        doCount (sw.UpdateMessage R webhookID webhookToken messageID messageUpdate threadID opts) = 0) ∧
    (R.Compile .DeleteWebhookMessage (some (messageQuery false threadID))
          [webhookID, webhookToken, messageID] = .error e →
      sw.DeleteMessage R webhookID webhookToken messageID threadID opts
          = ⟨[.Compile .DeleteWebhookMessage (some (messageQuery false threadID))
          [webhookID, webhookToken, messageID]],
              .ok (some e)⟩ ∧
        doCount (sw.DeleteMessage R webhookID webhookToken messageID threadID opts) = 0) := by
  refine ⟨?_, ?_, ?_, ?_, ?_, ?_, ?_, ?_, ?_, ?_, ?_, ?_, ?_, ?_, ?_, ?_, ?_⟩
  · intro h
    rw [inviteServiceImpl.GetInvite_run, h]
    exact ⟨rfl, rfl⟩
  · intro h
    rw [inviteServiceImpl.CreateInvite_run, h]
    exact ⟨rfl, rfl⟩
  · intro h
    rw [inviteServiceImpl.DeleteInvite_run, h]
    exact ⟨rfl, rfl⟩
  · intro h
    rw [inviteServiceImpl.GetGuildInvites_run, h]
    exact ⟨rfl, rfl⟩
  · intro h
    rw [inviteServiceImpl.GetChannelInvites_run, h]
    exact ⟨rfl, rfl⟩
  · intro h
    rw [voiceServiceImpl.GetVoiceRegions_run, h]
    exact ⟨rfl, rfl⟩
  · intro h
    rw [webhookServiceImpl.GetWebhook_run, h]
    exact ⟨rfl, rfl⟩
  · intro h
    rw [webhookServiceImpl.UpdateWebhook_run, h]
    exact ⟨rfl, rfl⟩
  · intro h
    rw [webhookServiceImpl.DeleteWebhook_run, h]
    exact ⟨rfl, rfl⟩
  · intro h
    rw [webhookServiceImpl.GetWebhookWithToken_run, h]
    exact ⟨rfl, rfl⟩
  · intro h
    rw [webhookServiceImpl.UpdateWebhookWithToken_run, h]
    exact ⟨rfl, rfl⟩
  · intro h
    rw [webhookServiceImpl.DeleteWebhookWithToken_run, h]
    exact ⟨rfl, rfl⟩
  · intro h
    rw [webhookServiceImpl.CreateMessage, webhookServiceImpl.createMessage_run, h]
    exact ⟨rfl, rfl⟩
  · intro h
    rw [webhookServiceImpl.CreateMessageSlack, webhookServiceImpl.createMessage_run, h]
    exact ⟨rfl, rfl⟩
  · intro h
    rw [webhookServiceImpl.CreateMessageGitHub, webhookServiceImpl.createMessage_run, h]
    exact ⟨rfl, rfl⟩
  · intro h
    rw [webhookServiceImpl.UpdateMessage_run, h]
    exact ⟨rfl, rfl⟩
  · intro h
    rw [webhookServiceImpl.DeleteMessage_run, h]
    exact ⟨rfl, rfl⟩

/-- C10: for each public operation of the invite, voice and webhook services
whose route compiles to `r` (and, for the webhook message create and update
operations, whose body serializes to `body`), the run holds the compilation
and then one invocation of the Request Executor, and the operation returns the
error the executor returned, unchanged; `GetWebhook`, `UpdateWebhook`,
`GetWebhookWithToken` and `UpdateWebhookWithToken` return the webhook of the
response envelope when the executor returned no error and an absent webhook
otherwise. -/
theorem executor_invoked_once (R : Registry T.Err T.CompiledAPIRoute)
    (si : inviteServiceImpl T) (sv : voiceServiceImpl T) (sw : webhookServiceImpl T)
    (code : String) (channelID guildID webhookID messageID threadID : Snowflake)
    (webhookToken : String) (inviteCreate webhookUpdate : T.Any)
    (messageCreate messageUpdate : Payload T) (wait : Bool) (opts : List T.RequestOpt) :
    (∀ r : T.CompiledAPIRoute, R.Compile .GetInvite none [code] = .ok r →
      si.GetInvite R code opts
          = ⟨[.Compile .GetInvite none [code],
                .Do r none .invite opts],
              .ok ((si.restClient.Do r none .invite opts).1, (si.restClient.Do r none .invite opts).2)⟩ ∧
        doCount (si.GetInvite R code opts) = 1) ∧
    (∀ r : T.CompiledAPIRoute, R.Compile .CreateInvite none [channelID] = .ok r →
      si.CreateInvite R channelID inviteCreate opts
          = ⟨[.Compile .CreateInvite none [channelID],
                .Do r (some inviteCreate) .invite opts],
              .ok ((si.restClient.Do r (some inviteCreate) .invite opts).1, (si.restClient.Do r (some inviteCreate) .invite opts).2)⟩ ∧
        doCount (si.CreateInvite R channelID inviteCreate opts) = 1) ∧
    (∀ r : T.CompiledAPIRoute, R.Compile .DeleteInvite none [code] = .ok r →
      si.DeleteInvite R code opts
          = ⟨[.Compile .DeleteInvite none [code],
                .Do r none .invite opts],
              .ok ((si.restClient.Do r none .invite opts).1, (si.restClient.Do r none .invite opts).2)⟩ ∧
        doCount (si.DeleteInvite R code opts) = 1) ∧
    (∀ r : T.CompiledAPIRoute, R.Compile .GetGuildInvites none [guildID] = .ok r →
      si.GetGuildInvites R guildID opts
          = ⟨[.Compile .GetGuildInvites none [guildID],
                .Do r none .invites opts],
              .ok ((si.restClient.Do r none .invites opts).1, (si.restClient.Do r none .invites opts).2)⟩ ∧
        doCount (si.GetGuildInvites R guildID opts) = 1) ∧
    (∀ r : T.CompiledAPIRoute, R.Compile .GetChannelInvites none [channelID] = .ok r →
      si.GetChannelInvites R channelID opts
          = ⟨[.Compile .GetChannelInvites none [channelID],
                .Do r none .invites opts],
              .ok ((si.restClient.Do r none .invites opts).1, (si.restClient.Do r none .invites opts).2)⟩ ∧
        doCount (si.GetChannelInvites R channelID opts) = 1) ∧
    (∀ r : T.CompiledAPIRoute, R.Compile .GetVoiceRegions none [] = .ok r →
      sv.GetVoiceRegions R opts
          = ⟨[.Compile .GetVoiceRegions none [],
                .Do r none .regions opts],
              .ok ((sv.restClient.Do r none .regions opts).1, (sv.restClient.Do r none .regions opts).2)⟩ ∧
        doCount (sv.GetVoiceRegions R opts) = 1) ∧
    (∀ r : T.CompiledAPIRoute, R.Compile .GetWebhook none [webhookID] = .ok r →
      sw.GetWebhook R webhookID opts
          = ⟨[.Compile .GetWebhook none [webhookID],
                .Do r none .unmarshalWebhook opts],
              .ok (if (sw.restClient.Do r none .unmarshalWebhook opts).2.isNone then (sw.restClient.Do r none .unmarshalWebhook opts).1.Webhook else none, (sw.restClient.Do r none .unmarshalWebhook opts).2)⟩ ∧
        doCount (sw.GetWebhook R webhookID opts) = 1) ∧
    (∀ r : T.CompiledAPIRoute, R.Compile .UpdateWebhook none [webhookID] = .ok r →
      sw.UpdateWebhook R webhookID webhookUpdate opts
          = ⟨[.Compile .UpdateWebhook none [webhookID],
                .Do r (some webhookUpdate) .unmarshalWebhook opts],
              .ok (if (sw.restClient.Do r (some webhookUpdate) .unmarshalWebhook opts).2.isNone then (sw.restClient.Do r (some webhookUpdate) .unmarshalWebhook opts).1.Webhook else none, (sw.restClient.Do r (some webhookUpdate) .unmarshalWebhook opts).2)⟩ ∧
        doCount (sw.UpdateWebhook R webhookID webhookUpdate opts) = 1) ∧
    (∀ r : T.CompiledAPIRoute, R.Compile .DeleteWebhook none [webhookID] = .ok r →
      sw.DeleteWebhook R webhookID opts
          = ⟨[.Compile .DeleteWebhook none [webhookID],
                .Do r none .nil opts],
              .ok (sw.restClient.Do r none .nil opts).2⟩ ∧
        doCount (sw.DeleteWebhook R webhookID opts) = 1) ∧
    (∀ r : T.CompiledAPIRoute, R.Compile .GetWebhookWithToken none [webhookID, webhookToken] = .ok r →
      sw.GetWebhookWithToken R webhookID webhookToken opts
          = ⟨[.Compile .GetWebhookWithToken none [webhookID, webhookToken],
                .Do r none .unmarshalWebhook opts],
              .ok (if (sw.restClient.Do r none .unmarshalWebhook opts).2.isNone then (sw.restClient.Do r none .unmarshalWebhook opts).1.Webhook else none, (sw.restClient.Do r none .unmarshalWebhook opts).2)⟩ ∧
        doCount (sw.GetWebhookWithToken R webhookID webhookToken opts) = 1) ∧
    (∀ r : T.CompiledAPIRoute, R.Compile .UpdateWebhookWithToken none [webhookID, webhookToken] = .ok r →
      sw.UpdateWebhookWithToken R webhookID webhookToken webhookUpdate opts
          = ⟨[.Compile .UpdateWebhookWithToken none [webhookID, webhookToken],
                .Do r (some webhookUpdate) .unmarshalWebhook opts],
              .ok (if (sw.restClient.Do r (some webhookUpdate) .unmarshalWebhook opts).2.isNone then (sw.restClient.Do r (some webhookUpdate) .unmarshalWebhook opts).1.Webhook else none, (sw.restClient.Do r (some webhookUpdate) .unmarshalWebhook opts).2)⟩ ∧
        doCount (sw.UpdateWebhookWithToken R webhookID webhookToken webhookUpdate opts) = 1) ∧
    (∀ r : T.CompiledAPIRoute, R.Compile .DeleteWebhookWithToken none [webhookID, webhookToken] = .ok r →
      sw.DeleteWebhookWithToken R webhookID webhookToken opts
          = ⟨[.Compile .DeleteWebhookWithToken none [webhookID, webhookToken],
                .Do r none .nil opts],
              .ok (sw.restClient.Do r none .nil opts).2⟩ ∧
        doCount (sw.DeleteWebhookWithToken R webhookID webhookToken opts) = 1) ∧
    (∀ (r : T.CompiledAPIRoute) (body : Option T.Any), R.Compile .CreateWebhookMessage (some (messageQuery wait threadID)) [webhookID, webhookToken] = .ok r →
      messageCreate.ToBody = .ok body →
      sw.CreateMessage R webhookID webhookToken messageCreate wait threadID opts
          = (if wait then
              ⟨[.Compile .CreateWebhookMessage (some (messageQuery wait threadID)) [webhookID, webhookToken],
                  .Do r body .message opts],
                .ok ((sw.restClient.Do r body .message opts).1,
                  (sw.restClient.Do r body .message opts).2)⟩
            else
              ⟨[.Compile .CreateWebhookMessage (some (messageQuery wait threadID)) [webhookID, webhookToken],
                  .Do r body .nil opts],
                .ok (none, (sw.restClient.Do r body .nil opts).2)⟩) ∧
        doCount (sw.CreateMessage R webhookID webhookToken messageCreate wait threadID opts) = 1) ∧
    (∀ (r : T.CompiledAPIRoute) (body : Option T.Any), R.Compile .CreateWebhookMessageSlack (some (messageQuery wait threadID)) [webhookID, webhookToken] = .ok r →
      messageCreate.ToBody = .ok body →
      sw.CreateMessageSlack R webhookID webhookToken messageCreate wait threadID opts
          = (if wait then
              ⟨[.Compile .CreateWebhookMessageSlack (some (messageQuery wait threadID)) [webhookID, webhookToken],
                  .Do r body .message opts],
                .ok ((sw.restClient.Do r body .message opts).1,
                  (sw.restClient.Do r body .message opts).2)⟩
            else
              ⟨[.Compile .CreateWebhookMessageSlack (some (messageQuery wait threadID)) [webhookID, webhookToken],
                  .Do r body .nil opts],
                .ok (none, (sw.restClient.Do r body .nil opts).2)⟩) ∧
        doCount (sw.CreateMessageSlack R webhookID webhookToken messageCreate wait threadID opts) = 1) ∧
    (∀ (r : T.CompiledAPIRoute) (body : Option T.Any), R.Compile .CreateWebhookMessageGitHub (some (messageQuery wait threadID)) [webhookID, webhookToken] = .ok r →
      messageCreate.ToBody = .ok body →
      sw.CreateMessageGitHub R webhookID webhookToken messageCreate wait threadID opts
          = (if wait then
              ⟨[.Compile .CreateWebhookMessageGitHub (some (messageQuery wait threadID)) [webhookID, webhookToken],
                  .Do r body .message opts],
                .ok ((sw.restClient.Do r body .message opts).1,
                  (sw.restClient.Do r body .message opts).2)⟩
            else
              ⟨[.Compile .CreateWebhookMessageGitHub (some (messageQuery wait threadID)) [webhookID, webhookToken],
                  .Do r body .nil opts],
                .ok (none, (sw.restClient.Do r body .nil opts).2)⟩) ∧
        doCount (sw.CreateMessageGitHub R webhookID webhookToken messageCreate wait threadID opts) = 1) ∧
    (∀ (r : T.CompiledAPIRoute) (body : Option T.Any), R.Compile .UpdateWebhookMessage (some (messageQuery false threadID))
          [webhookID, webhookToken, messageID] = .ok r →
      messageUpdate.ToBody = .ok body →
      sw.UpdateMessage R webhookID webhookToken messageID messageUpdate threadID opts
          = ⟨[.Compile .UpdateWebhookMessage (some (messageQuery false threadID))
          [webhookID, webhookToken, messageID],
                .Do r body .message opts],
              .ok ((sw.restClient.Do r body .message opts).1,
                (sw.restClient.Do r body .message opts).2)⟩ ∧
        doCount (sw.UpdateMessage R webhookID webhookToken messageID messageUpdate threadID opts) = 1) ∧
    (∀ r : T.CompiledAPIRoute, R.Compile .DeleteWebhookMessage (some (messageQuery false threadID))
          [webhookID, webhookToken, messageID] = .ok r →
      sw.DeleteMessage R webhookID webhookToken messageID threadID opts
          = ⟨[.Compile .DeleteWebhookMessage (some (messageQuery false threadID))
          [webhookID, webhookToken, messageID],
                .Do r none .nil opts],
              .ok (sw.restClient.Do r none .nil opts).2⟩ ∧
        doCount (sw.DeleteMessage R webhookID webhookToken messageID threadID opts) = 1) := by
  refine ⟨?_, ?_, ?_, ?_, ?_, ?_, ?_, ?_, ?_, ?_, ?_, ?_, ?_, ?_, ?_, ?_, ?_⟩
  · intro r h
    rw [inviteServiceImpl.GetInvite_run, h]
    exact ⟨rfl, rfl⟩
  · intro r h
    rw [inviteServiceImpl.CreateInvite_run, h]
    exact ⟨rfl, rfl⟩
  · intro r h
    rw [inviteServiceImpl.DeleteInvite_run, h]
    exact ⟨rfl, rfl⟩
  · intro r h
    rw [inviteServiceImpl.GetGuildInvites_run, h]
    exact ⟨rfl, rfl⟩
  · intro r h
    rw [inviteServiceImpl.GetChannelInvites_run, h]
    exact ⟨rfl, rfl⟩
  · intro r h
    rw [voiceServiceImpl.GetVoiceRegions_run, h]
    exact ⟨rfl, rfl⟩
  · intro r h
    rw [webhookServiceImpl.GetWebhook_run, h]
    exact ⟨rfl, rfl⟩
  · intro r h
    rw [webhookServiceImpl.UpdateWebhook_run, h]
    exact ⟨rfl, rfl⟩
  · intro r h
    rw [webhookServiceImpl.DeleteWebhook_run, h]
    exact ⟨rfl, rfl⟩
  · intro r h
    rw [webhookServiceImpl.GetWebhookWithToken_run, h]
    exact ⟨rfl, rfl⟩
  · intro r h
    rw [webhookServiceImpl.UpdateWebhookWithToken_run, h]
    exact ⟨rfl, rfl⟩
  · intro r h
    rw [webhookServiceImpl.DeleteWebhookWithToken_run, h]
    exact ⟨rfl, rfl⟩
  · intro r body h hb
    rw [webhookServiceImpl.CreateMessage, webhookServiceImpl.createMessage_run, h, hb]
    cases wait <;> exact ⟨rfl, rfl⟩
  · intro r body h hb
    rw [webhookServiceImpl.CreateMessageSlack, webhookServiceImpl.createMessage_run, h, hb]
    cases wait <;> exact ⟨rfl, rfl⟩
  · intro r body h hb
    rw [webhookServiceImpl.CreateMessageGitHub, webhookServiceImpl.createMessage_run, h, hb]
    cases wait <;> exact ⟨rfl, rfl⟩
  · intro r body h hb
    rw [webhookServiceImpl.UpdateMessage_run, h, hb]
    exact ⟨rfl, rfl⟩
  · intro r h
    rw [webhookServiceImpl.DeleteMessage_run, h]
    exact ⟨rfl, rfl⟩

/-- C9 at the registry in which every compilation fails: each operation
returns that failure and stops after the compilation. -/
theorem compile_failure_stops_witness :
    exampleInviteService.GetInvite failingRegistry "abc" []
      = ⟨[.Compile .GetInvite none ["abc"]], .ok (none, some "compilation failed")⟩ ∧
    exampleInviteService.CreateInvite failingRegistry "7" "new" []
      = ⟨[.Compile .CreateInvite none ["7"]], .ok (none, some "compilation failed")⟩ ∧
    exampleInviteService.DeleteInvite failingRegistry "abc" []
      = ⟨[.Compile .DeleteInvite none ["abc"]], .ok (none, some "compilation failed")⟩ ∧
    exampleInviteService.GetGuildInvites failingRegistry "9" []
      = ⟨[.Compile .GetGuildInvites none ["9"]], .ok ([], some "compilation failed")⟩ ∧
    exampleInviteService.GetChannelInvites failingRegistry "7" []
      = ⟨[.Compile .GetChannelInvites none ["7"]], .ok ([], some "compilation failed")⟩ ∧
    exampleVoiceService.GetVoiceRegions failingRegistry []
      = ⟨[.Compile .GetVoiceRegions none []], .ok ([], some "compilation failed")⟩ ∧
    exampleWebhookService.GetWebhook failingRegistry "1" []
      = ⟨[.Compile .GetWebhook none ["1"]], .ok (none, some "compilation failed")⟩ ∧
    exampleWebhookService.UpdateWebhook failingRegistry "1" "upd" []
      = ⟨[.Compile .UpdateWebhook none ["1"]], .ok (none, some "compilation failed")⟩ ∧
    exampleWebhookService.DeleteWebhook failingRegistry "1" []
      = ⟨[.Compile .DeleteWebhook none ["1"]], .ok (some "compilation failed")⟩ ∧
    exampleWebhookService.GetWebhookWithToken failingRegistry "1" "tok" []
      = ⟨[.Compile .GetWebhookWithToken none ["1", "tok"]], .ok (none, some "compilation failed")⟩ ∧
    exampleWebhookService.UpdateWebhookWithToken failingRegistry "1" "tok" "upd" []
      = ⟨[.Compile .UpdateWebhookWithToken none ["1", "tok"]], .ok (none, some "compilation failed")⟩ ∧
    exampleWebhookService.DeleteWebhookWithToken failingRegistry "1" "tok" []
      = ⟨[.Compile .DeleteWebhookWithToken none ["1", "tok"]], .ok (some "compilation failed")⟩ ∧
    exampleWebhookService.CreateMessage failingRegistry "1" "tok" examplePayload true "123" []
      = ⟨[.Compile .CreateWebhookMessage (some (messageQuery true "123")) ["1", "tok"]],
          .ok (none, some "compilation failed")⟩ ∧
    exampleWebhookService.CreateMessageSlack failingRegistry "1" "tok" examplePayload true "123" []
      = ⟨[.Compile .CreateWebhookMessageSlack (some (messageQuery true "123")) ["1", "tok"]],
          .ok (none, some "compilation failed")⟩ ∧
    exampleWebhookService.CreateMessageGitHub failingRegistry "1" "tok" examplePayload true "123" []
      = ⟨[.Compile .CreateWebhookMessageGitHub (some (messageQuery true "123")) ["1", "tok"]],
          .ok (none, some "compilation failed")⟩ ∧
    exampleWebhookService.UpdateMessage failingRegistry "1" "tok" "5" examplePayload "123" []
      = ⟨[.Compile .UpdateWebhookMessage (some (messageQuery false "123")) ["1", "tok", "5"]],
          .ok (none, some "compilation failed")⟩ ∧
    exampleWebhookService.DeleteMessage failingRegistry "1" "tok" "5" "123" []
      = ⟨[.Compile .DeleteWebhookMessage (some (messageQuery false "123")) ["1", "tok", "5"]],
          .ok (some "compilation failed")⟩ :=
  have h := compile_failure_stops failingRegistry exampleInviteService exampleVoiceService
    exampleWebhookService "abc" "7" "9" "1" "5" "123" "tok" "new" "upd" examplePayload
    examplePayload true [] "compilation failed"
  ⟨(h.1 rfl).1, (h.2.1 rfl).1, (h.2.2.1 rfl).1, (h.2.2.2.1 rfl).1, (h.2.2.2.2.1 rfl).1,
    (h.2.2.2.2.2.1 rfl).1, (h.2.2.2.2.2.2.1 rfl).1, (h.2.2.2.2.2.2.2.1 rfl).1,
    (h.2.2.2.2.2.2.2.2.1 rfl).1, (h.2.2.2.2.2.2.2.2.2.1 rfl).1, (h.2.2.2.2.2.2.2.2.2.2.1 rfl).1,
    (h.2.2.2.2.2.2.2.2.2.2.2.1 rfl).1, (h.2.2.2.2.2.2.2.2.2.2.2.2.1 rfl).1,
    (h.2.2.2.2.2.2.2.2.2.2.2.2.2.1 rfl).1, (h.2.2.2.2.2.2.2.2.2.2.2.2.2.2.1 rfl).1,
    (h.2.2.2.2.2.2.2.2.2.2.2.2.2.2.2.1 rfl).1, (h.2.2.2.2.2.2.2.2.2.2.2.2.2.2.2.2 rfl).1⟩

/-- C10 at the registry in which every compilation succeeds and an executor
that succeeds: each operation invokes the executor once on the compiled route
and returns what it stored; with the executor that reports `403`, `GetWebhook`
returns that error and no webhook. -/
theorem executor_invoked_once_witness :
    exampleInviteService.GetInvite workingRegistry "abc" []
      = ⟨[.Compile .GetInvite none ["abc"], .Do "abc" none .invite []],
          .ok (some "invite from abc", none)⟩ ∧
    exampleInviteService.CreateInvite workingRegistry "7" "new" []
      = ⟨[.Compile .CreateInvite none ["7"], .Do "7" (some "new") .invite []],
          .ok (some "invite from 7", none)⟩ ∧
    exampleInviteService.DeleteInvite workingRegistry "abc" []
      = ⟨[.Compile .DeleteInvite none ["abc"], .Do "abc" none .invite []],
          .ok (some "invite from abc", none)⟩ ∧
    exampleInviteService.GetGuildInvites workingRegistry "9" []
      = ⟨[.Compile .GetGuildInvites none ["9"], .Do "9" none .invites []],
          .ok (["invite from 9"], none)⟩ ∧
    exampleInviteService.GetChannelInvites workingRegistry "7" []
      = ⟨[.Compile .GetChannelInvites none ["7"], .Do "7" none .invites []],
          .ok (["invite from 7"], none)⟩ ∧
    exampleVoiceService.GetVoiceRegions workingRegistry []
      = ⟨[.Compile .GetVoiceRegions none [], .Do "" none .regions []],
          .ok (["region from "], none)⟩ ∧
    exampleWebhookService.GetWebhook workingRegistry "1" []
      = ⟨[.Compile .GetWebhook none ["1"], .Do "1" none .unmarshalWebhook []],
          .ok (some "webhook from 1", none)⟩ ∧
    exampleWebhookService.UpdateWebhook workingRegistry "1" "upd" []
      = ⟨[.Compile .UpdateWebhook none ["1"], .Do "1" (some "upd") .unmarshalWebhook []],
          .ok (some "webhook from 1", none)⟩ ∧
    exampleWebhookService.DeleteWebhook workingRegistry "1" []
      = ⟨[.Compile .DeleteWebhook none ["1"], .Do "1" none .nil []],
          .ok none⟩ ∧
    exampleWebhookService.GetWebhookWithToken workingRegistry "1" "tok" []
      = ⟨[.Compile .GetWebhookWithToken none ["1", "tok"], .Do "1/tok" none .unmarshalWebhook []],
          .ok (some "webhook from 1/tok", none)⟩ ∧
    exampleWebhookService.UpdateWebhookWithToken workingRegistry "1" "tok" "upd" []
      = ⟨[.Compile .UpdateWebhookWithToken none ["1", "tok"], .Do "1/tok" (some "upd") .unmarshalWebhook []],
          .ok (some "webhook from 1/tok", none)⟩ ∧
    exampleWebhookService.DeleteWebhookWithToken workingRegistry "1" "tok" []
      = ⟨[.Compile .DeleteWebhookWithToken none ["1", "tok"], .Do "1/tok" none .nil []],
          .ok none⟩ ∧
    exampleWebhookService.CreateMessage workingRegistry "1" "tok" examplePayload true "123" []
      = ⟨[.Compile .CreateWebhookMessage (some (messageQuery true "123")) ["1", "tok"],
            .Do "1/tok?thread_id=123" (some "hello") .message []],
          .ok (some "message from 1/tok?thread_id=123", none)⟩ ∧
    exampleWebhookService.CreateMessageSlack workingRegistry "1" "tok" examplePayload true "123" []
      = ⟨[.Compile .CreateWebhookMessageSlack (some (messageQuery true "123")) ["1", "tok"],
            .Do "1/tok?thread_id=123" (some "hello") .message []],
          .ok (some "message from 1/tok?thread_id=123", none)⟩ ∧
    exampleWebhookService.CreateMessageGitHub workingRegistry "1" "tok" examplePayload true "123" []
      = ⟨[.Compile .CreateWebhookMessageGitHub (some (messageQuery true "123")) ["1", "tok"],
            .Do "1/tok?thread_id=123" (some "hello") .message []],
          .ok (some "message from 1/tok?thread_id=123", none)⟩ ∧
    exampleWebhookService.UpdateMessage workingRegistry "1" "tok" "5" examplePayload "123" []
      = ⟨[.Compile .UpdateWebhookMessage (some (messageQuery false "123")) ["1", "tok", "5"],
            .Do "1/tok/5?thread_id=123" (some "hello") .message []],
          .ok (some "message from 1/tok/5?thread_id=123", none)⟩ ∧
    exampleWebhookService.DeleteMessage workingRegistry "1" "tok" "5" "123" []
      = ⟨[.Compile .DeleteWebhookMessage (some (messageQuery false "123")) ["1", "tok", "5"],
            .Do "1/tok/5?thread_id=123" none .nil []],
          .ok none⟩ ∧
    refusedWebhookService.GetWebhook workingRegistry "1" []
      = ⟨[.Compile .GetWebhook none ["1"], .Do "1" none .unmarshalWebhook []],
          .ok (none, some "403")⟩ :=
  have h := executor_invoked_once workingRegistry exampleInviteService exampleVoiceService
    exampleWebhookService "abc" "7" "9" "1" "5" "123" "tok" "new" "upd" examplePayload
    examplePayload true []
  have hr := executor_invoked_once workingRegistry exampleInviteService exampleVoiceService
    refusedWebhookService "abc" "7" "9" "1" "5" "123" "tok" "new" "upd" examplePayload
    examplePayload true []
  ⟨(h.1 _ rfl).1, (h.2.1 _ rfl).1, (h.2.2.1 _ rfl).1, (h.2.2.2.1 _ rfl).1, (h.2.2.2.2.1 _ rfl).1,
    (h.2.2.2.2.2.1 _ rfl).1, (h.2.2.2.2.2.2.1 _ rfl).1, (h.2.2.2.2.2.2.2.1 _ rfl).1,
    (h.2.2.2.2.2.2.2.2.1 _ rfl).1, (h.2.2.2.2.2.2.2.2.2.1 _ rfl).1,
    (h.2.2.2.2.2.2.2.2.2.2.1 _ rfl).1, (h.2.2.2.2.2.2.2.2.2.2.2.1 _ rfl).1,
    (h.2.2.2.2.2.2.2.2.2.2.2.2.1 _ _ rfl rfl).1, (h.2.2.2.2.2.2.2.2.2.2.2.2.2.1 _ _ rfl rfl).1,
    (h.2.2.2.2.2.2.2.2.2.2.2.2.2.2.1 _ _ rfl rfl).1,
    (h.2.2.2.2.2.2.2.2.2.2.2.2.2.2.2.1 _ _ rfl rfl).1,
    (h.2.2.2.2.2.2.2.2.2.2.2.2.2.2.2.2 _ rfl).1,
    (hr.2.2.2.2.2.2.1 _ rfl).1⟩

end rest

namespace core

open discord

variable {T : Types}

/-- C11: on every channel, whatever its type, `IsMessageChannel()` and
`IsGuildChannel()` return true, so the guard on the discriminant never fires
in the guild-scoped accessors: `Permissions`, `ParentID` and `Position` never
raise the unsupported-operation fault (`ParentID` and `Position` return the
held field, `Permissions` dereferences the held pointer), and `GuildID` raises
it exactly when the guild identifier is unset and returns the identifier
otherwise. -/
theorem channelImpl.guild_guards_never_fire (c : channelImpl T) :
    c.IsMessageChannel = true ∧
    c.IsGuildChannel = true ∧
    (c.Permissions.raisesUnsupported = false ∧
      c.Permissions = (match c.Channel.InteractionPermissions with
        | some permissions => ⟨[], .ok permissions⟩
        | none => ⟨[], .error .nilDereference⟩)) ∧
    (c.ParentID.raisesUnsupported = false ∧ c.ParentID = ⟨[], .ok c.Channel.ParentID⟩) ∧
    (c.Position.raisesUnsupported = false ∧ c.Position = ⟨[], .ok c.Channel.Position⟩) ∧
    (c.GuildID.raisesUnsupported = c.Channel.GuildID.isNone ∧
      c.GuildID = (match c.Channel.GuildID with
        | some guildID => ⟨[], .ok guildID⟩
        | none => ⟨[], .error .unsupportedOperation⟩)) := by
  obtain ⟨⟨id, name, ty, lm, lp, g, ip, pid, pos, br, nsfw, topic⟩, d, sid⟩ := c
  refine ⟨?_, ?_, ⟨?_, ?_⟩, ⟨?_, ?_⟩, ⟨?_, ?_⟩, ⟨?_, ?_⟩⟩
  · cases ty <;> rfl
  · cases ty <;> rfl
  · cases ty <;> cases ip <;> rfl
  · cases ty <;> cases ip <;> rfl
  · cases ty <;> rfl
  · cases ty <;> rfl
  · cases ty <;> rfl
  · cases ty <;> rfl
  · cases ty <;> cases g <;> rfl
  · cases ty <;> cases g <;> rfl

end core

namespace rest

open discord route

variable {T : Types}

/-- C12: for webhook `CreateMessage`, `CreateMessageSlack` and
`CreateMessageGitHub`, when the route compiles to `r` and the body serializes
to `body`: with `wait` false the Request Executor is invoked once with the nil
response sink and the returned message is absent whatever the executor
answers, its error being returned; with `wait` true it is invoked once with
the message as response sink and the returned message is what the executor
left there, next to the executor's error. -/
theorem webhookServiceImpl.createMessage_response_sink
    (R : Registry T.Err T.CompiledAPIRoute) (sw : webhookServiceImpl T)
    (webhookID threadID : Snowflake) (webhookToken : String) (messageCreate : Payload T)
    (opts : List T.RequestOpt) :
    (∀ (r : T.CompiledAPIRoute) (body : Option T.Any),
      R.Compile .CreateWebhookMessage (some (messageQuery false threadID))
          [webhookID, webhookToken] = .ok r →
      messageCreate.ToBody = .ok body →
      sw.CreateMessage R webhookID webhookToken messageCreate false threadID opts
          = ⟨[.Compile .CreateWebhookMessage (some (messageQuery false threadID))
          [webhookID, webhookToken],
                .Do r body .nil opts],
              .ok (none, (sw.restClient.Do r body .nil opts).2)⟩) ∧
    (∀ (r : T.CompiledAPIRoute) (body : Option T.Any),
      R.Compile .CreateWebhookMessage (some (messageQuery true threadID))
          [webhookID, webhookToken] = .ok r →
      messageCreate.ToBody = .ok body →
      sw.CreateMessage R webhookID webhookToken messageCreate true threadID opts
          = ⟨[.Compile .CreateWebhookMessage (some (messageQuery true threadID))
          [webhookID, webhookToken],
                .Do r body .message opts],
              .ok ((sw.restClient.Do r body .message opts).1,
                (sw.restClient.Do r body .message opts).2)⟩) ∧
    (∀ (r : T.CompiledAPIRoute) (body : Option T.Any),
      R.Compile .CreateWebhookMessageSlack (some (messageQuery false threadID))
          [webhookID, webhookToken] = .ok r →
      messageCreate.ToBody = .ok body →
      sw.CreateMessageSlack R webhookID webhookToken messageCreate false threadID opts
          = ⟨[.Compile .CreateWebhookMessageSlack (some (messageQuery false threadID))
          [webhookID, webhookToken],
                .Do r body .nil opts],
              .ok (none, (sw.restClient.Do r body .nil opts).2)⟩) ∧
    (∀ (r : T.CompiledAPIRoute) (body : Option T.Any),
      R.Compile .CreateWebhookMessageSlack (some (messageQuery true threadID))
          [webhookID, webhookToken] = .ok r →
      messageCreate.ToBody = .ok body →
      sw.CreateMessageSlack R webhookID webhookToken messageCreate true threadID opts
          = ⟨[.Compile .CreateWebhookMessageSlack (some (messageQuery true threadID))
          [webhookID, webhookToken],
                .Do r body .message opts],
              .ok ((sw.restClient.Do r body .message opts).1,
                (sw.restClient.Do r body .message opts).2)⟩) ∧
    (∀ (r : T.CompiledAPIRoute) (body : Option T.Any),
      R.Compile .CreateWebhookMessageGitHub (some (messageQuery false threadID))
          [webhookID, webhookToken] = .ok r →
      messageCreate.ToBody = .ok body →
      sw.CreateMessageGitHub R webhookID webhookToken messageCreate false threadID opts
          = ⟨[.Compile .CreateWebhookMessageGitHub (some (messageQuery false threadID))
          [webhookID, webhookToken],
                .Do r body .nil opts],
              .ok (none, (sw.restClient.Do r body .nil opts).2)⟩) ∧
    (∀ (r : T.CompiledAPIRoute) (body : Option T.Any),
      R.Compile .CreateWebhookMessageGitHub (some (messageQuery true threadID))
          [webhookID, webhookToken] = .ok r →
      messageCreate.ToBody = .ok body →
      sw.CreateMessageGitHub R webhookID webhookToken messageCreate true threadID opts
          = ⟨[.Compile .CreateWebhookMessageGitHub (some (messageQuery true threadID))
          [webhookID, webhookToken],
                .Do r body .message opts],
              .ok ((sw.restClient.Do r body .message opts).1,
                (sw.restClient.Do r body .message opts).2)⟩) := by
  refine ⟨?_, ?_, ?_, ?_, ?_, ?_⟩
  · intro r body h hb
    rw [webhookServiceImpl.CreateMessage, webhookServiceImpl.createMessage_run, h, hb]
    rfl
  · intro r body h hb
    rw [webhookServiceImpl.CreateMessage, webhookServiceImpl.createMessage_run, h, hb]
    rfl
  · intro r body h hb
    rw [webhookServiceImpl.CreateMessageSlack, webhookServiceImpl.createMessage_run, h, hb]
    rfl
  · intro r body h hb
    rw [webhookServiceImpl.CreateMessageSlack, webhookServiceImpl.createMessage_run, h, hb]
    rfl
  · intro r body h hb
    rw [webhookServiceImpl.CreateMessageGitHub, webhookServiceImpl.createMessage_run, h, hb]
    rfl
  · intro r body h hb
    rw [webhookServiceImpl.CreateMessageGitHub, webhookServiceImpl.createMessage_run, h, hb]
    rfl

/-- C12 at the registry in which every compilation succeeds: without `wait`
the succeeding executor is invoked with the nil sink and no message comes
back; with `wait` the executor that fills the sink and reports `403` is
invoked with the message sink, and the message it stored comes back with that
error. -/
theorem webhookServiceImpl.createMessage_response_sink_witness :
    exampleWebhookService.CreateMessage workingRegistry "1" "tok" examplePayload false "" []
      = ⟨[.Compile .CreateWebhookMessage (some (messageQuery false "")) ["1", "tok"],
            .Do "1/tok" (some "hello") .nil []],
          .ok (none, none)⟩ ∧
    refusedWebhookService.CreateMessage workingRegistry "1" "tok" examplePayload true "" []
      = ⟨[.Compile .CreateWebhookMessage (some (messageQuery true "")) ["1", "tok"],
            .Do "1/tok" (some "hello") .message []],
          .ok (some "message from 1/tok", some "403")⟩ ∧
    exampleWebhookService.CreateMessageSlack workingRegistry "1" "tok" examplePayload false "" []
      = ⟨[.Compile .CreateWebhookMessageSlack (some (messageQuery false "")) ["1", "tok"],
            .Do "1/tok" (some "hello") .nil []],
          .ok (none, none)⟩ ∧
    refusedWebhookService.CreateMessageSlack workingRegistry "1" "tok" examplePayload true "" []
      = ⟨[.Compile .CreateWebhookMessageSlack (some (messageQuery true "")) ["1", "tok"],
            .Do "1/tok" (some "hello") .message []],
          .ok (some "message from 1/tok", some "403")⟩ ∧
    exampleWebhookService.CreateMessageGitHub workingRegistry "1" "tok" examplePayload false "" []
      = ⟨[.Compile .CreateWebhookMessageGitHub (some (messageQuery false "")) ["1", "tok"],
            .Do "1/tok" (some "hello") .nil []],
          .ok (none, none)⟩ ∧
    refusedWebhookService.CreateMessageGitHub workingRegistry "1" "tok" examplePayload true "" []
      = ⟨[.Compile .CreateWebhookMessageGitHub (some (messageQuery true "")) ["1", "tok"],
            .Do "1/tok" (some "hello") .message []],
          .ok (some "message from 1/tok", some "403")⟩ :=
  have h := webhookServiceImpl.createMessage_response_sink workingRegistry
    exampleWebhookService "1" "" "tok" examplePayload []
  have hr := webhookServiceImpl.createMessage_response_sink workingRegistry
    refusedWebhookService "1" "" "tok" examplePayload []
  ⟨h.1 _ _ rfl rfl,
    hr.2.1 _ _ rfl rfl,
    h.2.2.1 _ _ rfl rfl,
    hr.2.2.2.1 _ _ rfl rfl,
    h.2.2.2.2.1 _ _ rfl rfl,
    hr.2.2.2.2.2 _ _ rfl rfl⟩

end rest
